import Mathlib

/-!
# Rice yield scoring engine and growth timeline

A shallow embedding of the computational core of `src/app.js`:
`calculateYieldPrediction`, `generateOptimizationRoadmap`, `calculateConfidence`
and `calculateGrowthTimeline`, together with the lookup tables of `appData`.

Modelling conventions.

* A JavaScript number is an exact rational (`ℚ`), or `none` where it may be `NaN`;
  values produced by `Math.round`, `Math.floor` and by `Date` arithmetic are integers
  (`ℤ`).  Binary floating-point rounding error is not modelled.
* Each function of the scoring engine is read twice.  The numeric reading
  (`calculateYieldPrediction`, `generateOptimizationRoadmap`) takes a record of numbers
  and is the code on records none of whose categorical values names a property
  inherited from `Object.prototype`.  The reading with `NaN`
  (`calculateYieldPredictionNaN`, `generateOptimizationRoadmapNaN`) takes the record
  as the form handler builds it, where `parseInt` and `parseFloat` may return `NaN`
  and a table lookup may reach an inherited property.  `calculateYieldPredictionNaN_eq`
  and `roadmapNaN_eq` state where the two agree.
* Categorical values are strings.  A table of `appData` is the list of the
  key/value pairs of its object literal.
* `Math.random()` is not modelled as an effect: the value of the local constant
  `randomFactor` is an argument of `calculateYieldPrediction`.
* A `Date` is its time value in milliseconds since the epoch; `none` stands for
  an invalid date, whose time value is `NaN`.  The clock reading `new Date()` is
  the argument `today`.  `calculateGrowthTimelineIn` runs the timeline in a given
  time zone, where `setDate` works in local time and time values are clipped to the
  range of `Date`; `calculateGrowthTimeline` is the same function in a zone with a
  fixed offset from UTC and within that range
  (`calculateGrowthTimelineIn_fixedOffset`), where adding 110 calendar days adds
  110 × 86 400 000 ms.
-/

namespace DataQuest

/-! ## Numeric primitives -/

/-- The function `Math.round` on a finite number: nearest integer, ties towards +∞. -/
def mathRound (x : ℚ) : ℤ := ⌊x + 1 / 2⌋

/-- The function `Math.floor` on a finite number. -/
def mathFloor (x : ℚ) : ℤ := ⌊x⌋

/-- The expression `table[key] || fallback` for a key that names no property inherited
from `Object.prototype`: the table value when the key is listed and the value is truthy
(non-zero), the fallback otherwise.  `lookupOrNaN` is the lookup for every key. -/
def lookupOr (table : List (String × ℚ)) (key : String) (fallback : ℚ) : ℚ :=
  match table.lookup key with
  | some v => if v = 0 then fallback else v
  | none => fallback

/-! ## Application data (`appData`) -/

/-- Entry of `appData.optimization_priorities`. -/
structure Priority where
  impact : String
  description : String
  potential_increase : String
  investment : String
  timeline : String
deriving DecidableEq

/-- The field `appData.ideal_conditions.theoretical_max_yield`. -/
def theoretical_max_yield : ℚ := 10.465

/-- The table `appData.soil_base_yields`. -/
def soil_base_yields : List (String × ℚ) :=
  [("Clay", 3.5), ("Loam", 4.0), ("Sandy", 2.8), ("Silt", 3.2), ("Peat", 3.8)]

/-- The table `appData.irrigation_multipliers`. -/
def irrigation_multipliers : List (String × ℚ) :=
  [("Flood", 1.2), ("Drip", 1.4), ("Sprinkler", 1.3), ("Rain-fed", 0.8), ("Furrow", 1.1)]

/-- The table `appData.terrain_adjustments`. -/
def terrain_adjustments : List (String × ℚ) :=
  [("Flat", 1.0), ("Gentle Slope", 0.95), ("Steep Slope", 0.85), ("Valley", 1.1),
   ("Plateau", 0.9)]

/-- The table `appData.fertilizer_effects`. -/
def fertilizer_effects : List (String × ℚ) :=
  [("NPK", 1.3), ("Urea", 1.2), ("DAP", 1.25), ("Organic", 1.15), ("Compost", 1.1),
   ("None", 0.7)]

/-- The table `appData.seed_bonuses`. -/
def seed_bonuses : List (String × ℚ) := [("Hybrid", 1.25), ("Normal", 1.0)]

/-- The table `appData.previous_crop_effects`. -/
def previous_crop_effects : List (String × ℚ) :=
  [("None", 1.0), ("Rice", 0.9), ("Wheat", 1.1), ("Sugarcane", 0.95), ("Cotton", 1.05),
   ("Vegetables", 1.15)]

/-- The constant `appData.rice_price_per_ton`. -/
def rice_price_per_ton : ℚ := 50000

/-- The entry `appData.optimization_priorities.soil_improvement`. -/
def soil_improvement : Priority :=
  { impact := "High", description := "Switch to loam soil or improve soil composition",
    potential_increase := "15-25%", investment := "Medium to High", timeline := "6-12 months" }

/-- The entry `appData.optimization_priorities.irrigation_upgrade`. -/
def irrigation_upgrade : Priority :=
  { impact := "High", description := "Upgrade to drip irrigation system",
    potential_increase := "10-20%", investment := "High", timeline := "2-4 months" }

/-- The entry `appData.optimization_priorities.hybrid_seeds`. -/
def hybrid_seeds : Priority :=
  { impact := "Medium", description := "Use hybrid seed varieties",
    potential_increase := "20-25%", investment := "Low", timeline := "Next planting season" }

/-- The entry `appData.optimization_priorities.fertilizer_optimization`. -/
def fertilizer_optimization : Priority :=
  { impact := "Medium", description := "Optimize fertilizer type and quantity",
    potential_increase := "10-15%", investment := "Low to Medium", timeline := "Current season" }

/-- The entry `appData.optimization_priorities.crop_rotation`. -/
def crop_rotation : Priority :=
  { impact := "Low", description := "Implement proper crop rotation",
    potential_increase := "5-10%", investment := "Low", timeline := "Next 2-3 seasons" }

/-! ## Records -/

/-- The fields of `cropData` read by the scoring engine. -/
structure CropData where
  landArea : ℚ
  soilType : String
  terrainType : String
  irrigationMethod : String
  fertilizerType : String
  fertilizerQuantity : ℚ
  seedType : String
  previousCrop : String
deriving DecidableEq

/-- One element of the list built by `generateOptimizationRoadmap`. -/
structure Recommendation where
  text : String
  impact : String
  increase : String
  timeline : String
  investment : String
deriving DecidableEq

/-- The object returned by `calculateYieldPrediction`. -/
structure PredictionResult where
  predictedYield : ℚ
  idealYield : ℚ
  totalYield : ℚ
  expectedIncome : ℤ
  potentialIncome : ℤ
  efficiency : ℚ
  yieldGap : ℚ
  recommendations : List Recommendation
  confidenceLevel : ℤ
deriving DecidableEq

/-! ## Scoring engine -/

/-- The object literal pushed for a catalog entry `priority`. -/
def recommendationOf (priority : Priority) : Recommendation :=
  { text := priority.description, impact := priority.impact,
    increase := priority.potential_increase, timeline := priority.timeline,
    investment := priority.investment }

/-- The message pushed when `efficiency < 40`. -/
def extensionServicesMessage : Recommendation :=
  { text := "Consider consulting with agricultural extension services for comprehensive farm assessment",
    impact := "High", increase := "20-30%", timeline := "Immediate", investment := "Low" }

/-- The message pushed when `40 ≤ efficiency < 70`. -/
def precisionAgricultureMessage : Recommendation :=
  { text := "Focus on soil testing and precision agriculture techniques",
    impact := "Medium", increase := "10-15%", timeline := "1-2 months", investment := "Medium" }

/-- The test `(predictedYield / idealYield) * 100 < bound` of `generateOptimizationRoadmap`
on finite numbers.  With a zero divisor the quotient is `NaN` (zero dividend, every
comparison false), `+Infinity` (positive dividend) or `-Infinity` (negative dividend). -/
def efficiencyBelow (predictedYield idealYield bound : ℚ) : Bool :=
  if idealYield = 0 then decide (predictedYield < 0)
  else decide (predictedYield / idealYield * 100 < bound)

/-- The function `generateOptimizationRoadmap` on numbers (`recommendations.push`
appends, `slice(0, 5)` keeps the first five). -/
def generateOptimizationRoadmap (cropData : CropData) (predictedYield idealYield : ℚ) :
    List Recommendation :=
  let recommendations : List Recommendation := []
  let recommendations :=
    if cropData.soilType ≠ "Loam" then recommendations ++ [recommendationOf soil_improvement]
    else recommendations
  let recommendations :=
    if cropData.irrigationMethod ≠ "Drip" then
      recommendations ++ [recommendationOf irrigation_upgrade]
    else recommendations
  let recommendations :=
    if cropData.seedType ≠ "Hybrid" then recommendations ++ [recommendationOf hybrid_seeds]
    else recommendations
  let recommendations :=
    if cropData.fertilizerType ≠ "NPK" ∨ cropData.fertilizerQuantity < 120 then
      recommendations ++ [recommendationOf fertilizer_optimization]
    else recommendations
  let recommendations :=
    if cropData.previousCrop = "Rice" then recommendations ++ [recommendationOf crop_rotation]
    else recommendations
  let recommendations :=
    if efficiencyBelow predictedYield idealYield 40 then
      recommendations ++ [extensionServicesMessage]
    else if efficiencyBelow predictedYield idealYield 70 then
      recommendations ++ [precisionAgricultureMessage]
    else recommendations
  recommendations.take 5

/-- The function `calculateConfidence`. -/
def calculateConfidence (cropData : CropData) : ℤ :=
  let confidence : ℤ := 85
  let confidence :=
    if cropData.irrigationMethod = "Drip" then confidence + 5
    else if cropData.irrigationMethod = "Rain-fed" then confidence - 10
    else confidence
  let confidence := if cropData.seedType = "Hybrid" then confidence + 3 else confidence
  let confidence :=
    if cropData.fertilizerType = "None" then confidence - 8
    else if cropData.fertilizerType = "NPK" then confidence + 2
    else confidence
  let confidence :=
    if cropData.soilType = "Loam" then confidence + 3
    else if cropData.soilType = "Sandy" then confidence - 5
    else confidence
  min (max confidence 60) 95

/-- The value `baseYield` of `calculateYieldPrediction` after the six table factors
and the fertilizer-quantity bonus have been applied (source lines 479 to 487), in the
numeric reading. -/
def baseYield (cropData : CropData) : ℚ :=
  let baseYield := lookupOr soil_base_yields cropData.soilType 3.0
  let baseYield := baseYield * lookupOr terrain_adjustments cropData.terrainType 1.0
  let baseYield := baseYield * lookupOr irrigation_multipliers cropData.irrigationMethod 1.0
  let baseYield := baseYield * lookupOr fertilizer_effects cropData.fertilizerType 1.0
  let baseYield := baseYield * lookupOr seed_bonuses cropData.seedType 1.0
  let baseYield := baseYield * lookupOr previous_crop_effects cropData.previousCrop 1.0
  let fertilizerBonus := min (cropData.fertilizerQuantity / 135 * 0.15) 0.25
  baseYield * (1 + fertilizerBonus)

/-- The function `calculateYieldPrediction` in the numeric reading; `randomFactor` is the
value of the local constant of that name, `0.95 + Math.random() * 0.1` in the source. -/
def calculateYieldPrediction (cropData : CropData) (randomFactor : ℚ) : PredictionResult :=
  let predictedYield := baseYield cropData * randomFactor
  let idealYield := theoretical_max_yield
  let efficiency := min (predictedYield / idealYield * 100) 100
  let totalYield := predictedYield * cropData.landArea
  let expectedIncome := totalYield * rice_price_per_ton
  let potentialIncome := idealYield * cropData.landArea * rice_price_per_ton
  let recommendations := generateOptimizationRoadmap cropData predictedYield idealYield
  { predictedYield := (mathRound (predictedYield * 100) : ℚ) / 100
    idealYield := (mathRound (idealYield * 100) : ℚ) / 100
    totalYield := (mathRound (totalYield * 100) : ℚ) / 100
    expectedIncome := mathRound expectedIncome
    potentialIncome := mathRound potentialIncome
    efficiency := (mathRound (efficiency * 10) : ℚ) / 10
    yieldGap := (mathRound ((idealYield - predictedYield) * 100) : ℚ) / 100
    recommendations := recommendations
    confidenceLevel := calculateConfidence cropData }

/-- The value of `randomFactor` for a reading `random` of `Math.random()`. -/
def randomFactorOf (random : ℚ) : ℚ := 0.95 + random * 0.1

/-! ## Growth timeline -/

/-- The values taken by `currentStage`: the six keys of `appData.rice_growth_stages`
and the terminal `harvest_ready`. -/
inductive Stage where
  | germination
  | seedling
  | tillering
  | stem_elongation
  | heading
  | maturity
  | harvest_ready
deriving DecidableEq

/-- Position of a stage in the order germination, seedling, tillering, stem_elongation,
heading, maturity, harvest_ready. -/
def Stage.rank : Stage → ℕ
  | .germination => 0
  | .seedling => 1
  | .tillering => 2
  | .stem_elongation => 3
  | .heading => 4
  | .maturity => 5
  | .harvest_ready => 6

/-- The object returned by `calculateGrowthTimeline`, without the echoed input string
`plantingDate` and the formatted string `expectedHarvest`.  In the numeric fields
`none` stands for `NaN`, in `harvestDate` for an invalid date. -/
structure Timeline where
  currentStage : Stage
  stageProgress : ℚ
  daysSincePlanting : Option ℤ
  daysToHarvest : Option ℤ
  harvestDate : Option ℤ
deriving DecidableEq

/-- The divisor `1000 * 60 * 60 * 24`: milliseconds in a day. -/
def msPerDay : ℤ := 1000 * 60 * 60 * 24

/-- The function `calculateGrowthTimeline` in a time zone with a fixed offset from UTC
and with the harvest date within the range of `Date`.  `plantDate` is the time value of
`new Date(plantingDate)` (`none` when the string does not parse) and `today` the time
value of `new Date()`.

With an invalid planting date `daysSincePlanting` is `NaN`: every comparison of the
`if` chain is false, so the final `else` branch is taken, and `Math.max(0, NaN)` is
`NaN` for both day counts. -/
def calculateGrowthTimeline (plantDate : Option ℤ) (today : ℤ) : Timeline :=
  match plantDate with
  | none =>
    { currentStage := .harvest_ready, stageProgress := min 100 100,
      daysSincePlanting := none, daysToHarvest := none, harvestDate := none }
  | some plantDate =>
    let daysSincePlanting : ℤ := mathFloor (((today - plantDate : ℤ) : ℚ) / (msPerDay : ℚ))
    let harvestDate : ℤ := plantDate + 110 * msPerDay
    let daysToHarvest : ℤ :=
      max 0 (mathFloor (((harvestDate - today : ℤ) : ℚ) / (msPerDay : ℚ)))
    let stage : Stage × ℚ :=
      if daysSincePlanting ≥ 0 ∧ daysSincePlanting ≤ 10 then
        (.germination, ((daysSincePlanting : ℚ) / 10) * 100)
      else if daysSincePlanting ≤ 30 then
        (.seedling, (((daysSincePlanting : ℚ) - 10) / 20) * 100)
      else if daysSincePlanting ≤ 60 then
        (.tillering, (((daysSincePlanting : ℚ) - 30) / 30) * 100)
      else if daysSincePlanting ≤ 80 then
        (.stem_elongation, (((daysSincePlanting : ℚ) - 60) / 20) * 100)
      else if daysSincePlanting ≤ 100 then
        (.heading, (((daysSincePlanting : ℚ) - 80) / 20) * 100)
      else if daysSincePlanting ≤ 120 then
        (.maturity, (((daysSincePlanting : ℚ) - 100) / 20) * 100)
      else
        (.harvest_ready, 100)
    { currentStage := stage.1, stageProgress := min stage.2 100,
      daysSincePlanting := some (max 0 daysSincePlanting),
      daysToHarvest := some daysToHarvest, harvestDate := some harvestDate }

/-- The comparison `x <= bound` on a number that may be `NaN` (`none`): false on `NaN`. -/
def leNum (x : Option ℤ) (bound : ℤ) : Bool :=
  match x with
  | some v => decide (v ≤ bound)
  | none => false

/-- The comparison `x >= bound` on a number that may be `NaN` (`none`): false on `NaN`. -/
def geNum (x : Option ℤ) (bound : ℤ) : Bool :=
  match x with
  | some v => decide (v ≥ bound)
  | none => false

/-- The object returned by `calculateGrowthTimeline` with every numeric field allowed to
be `NaN` (`none`). -/
structure TimelineNaN where
  currentStage : Stage
  stageProgress : Option ℚ
  daysSincePlanting : Option ℤ
  daysToHarvest : Option ℤ
  harvestDate : Option ℤ
deriving DecidableEq

/-- A statement-by-statement reading of `calculateGrowthTimeline` in which `NaN` is
propagated through the arithmetic (`Option.map`), through `Math.max` and `Math.min`
(`NaN` if an argument is `NaN`) and through the comparisons (false on `NaN`), with no
case distinction on the validity of the planting date. -/
def calculateGrowthTimelineNaN (plantDate : Option ℤ) (today : ℤ) : TimelineNaN :=
  let daysSincePlanting : Option ℤ :=
    plantDate.map fun p => mathFloor (((today - p : ℤ) : ℚ) / (msPerDay : ℚ))
  let harvestDate : Option ℤ := plantDate.map fun p => p + 110 * msPerDay
  let daysToHarvest : Option ℤ :=
    (harvestDate.map fun h => mathFloor (((h - today : ℤ) : ℚ) / (msPerDay : ℚ))).map
      fun n => max 0 n
  let stage : Stage × Option ℚ :=
    if geNum daysSincePlanting 0 && leNum daysSincePlanting 10 then
      (.germination, daysSincePlanting.map fun d => ((d : ℚ) / 10) * 100)
    else if leNum daysSincePlanting 30 then
      (.seedling, daysSincePlanting.map fun d => (((d : ℚ) - 10) / 20) * 100)
    else if leNum daysSincePlanting 60 then
      (.tillering, daysSincePlanting.map fun d => (((d : ℚ) - 30) / 30) * 100)
    else if leNum daysSincePlanting 80 then
      (.stem_elongation, daysSincePlanting.map fun d => (((d : ℚ) - 60) / 20) * 100)
    else if leNum daysSincePlanting 100 then
      (.heading, daysSincePlanting.map fun d => (((d : ℚ) - 80) / 20) * 100)
    else if leNum daysSincePlanting 120 then
      (.maturity, daysSincePlanting.map fun d => (((d : ℚ) - 100) / 20) * 100)
    else
      (.harvest_ready, some 100)
  { currentStage := stage.1, stageProgress := stage.2.map fun x => min x 100,
    daysSincePlanting := daysSincePlanting.map fun d => max 0 d,
    daysToHarvest := daysToHarvest, harvestDate := harvestDate }

/-- Elapsed whole days between two time values: the `daysSincePlanting` of
`calculateGrowthTimeline` before it is clamped for the result. -/
def elapsedDays (plantDate today : ℤ) : ℤ :=
  mathFloor (((today - plantDate : ℤ) : ℚ) / (msPerDay : ℚ))

/-- Days from 1970-01-01 to the Gregorian calendar date `y`-`m`-`d`. -/
def daysFromCivil (y m d : ℤ) : ℤ :=
  let y := if m ≤ 2 then y - 1 else y
  let era := y / 400
  let yoe := y - era * 400
  let doy := (153 * (if m > 2 then m - 3 else m + 9) + 2) / 5 + d - 1
  let doe := yoe * 365 + yoe / 4 - yoe / 100 + doy
  era * 146097 + doe - 719468

/-- Time value of `new Date("YYYY-MM-DD")`: midnight UTC of that calendar date. -/
def dateOf (y m d : ℤ) : ℤ := daysFromCivil y m d * msPerDay

/-! ## Scoring engine with `NaN`

The definitions above compute with numbers only.  The ones below read the same source
statements with values that may be `NaN` (`none`): a fertilizer quantity or land area
that `parseInt` / `parseFloat` could not read, and a table lookup that reaches a
property inherited from `Object.prototype`. -/

/-- The names of the properties that every object literal inherits from
`Object.prototype`.  Indexing a table of `appData` with one of them yields a function
(for `__proto__`, the prototype object): a truthy value whose conversion to a number
is `NaN`. -/
def objectPrototypeKeys : List String :=
  ["constructor", "__defineGetter__", "__defineSetter__", "hasOwnProperty",
   "__lookupGetter__", "__lookupSetter__", "isPrototypeOf", "propertyIsEnumerable",
   "toString", "valueOf", "__proto__", "toLocaleString"]

/-- The numeric value of `table[key] || fallback` in a multiplication: the table value
for a listed key (the fallback if that value is falsy), `NaN` for an unlisted key that
names an inherited property (the inherited value is truthy, so `||` keeps it), and the
fallback for any other key (`undefined` is falsy). -/
def lookupOrNaN (table : List (String × ℚ)) (key : String) (fallback : ℚ) : Option ℚ :=
  match table.lookup key with
  | some v => if v = 0 then some fallback else some v
  | none => if key ∈ objectPrototypeKeys then none else some fallback

/-- The object `cropData` as the form handler builds it: `landArea` is the result of
`parseFloat` and `fertilizerQuantity` of `parseInt`, either of which may be `NaN`. -/
structure CropDataNaN where
  landArea : Option ℚ
  soilType : String
  terrainType : String
  irrigationMethod : String
  fertilizerType : String
  fertilizerQuantity : Option ℚ
  seedType : String
  previousCrop : String
deriving DecidableEq

/-- The object returned by `calculateYieldPrediction`, each numeric field possibly
`NaN`. -/
structure PredictionResultNaN where
  predictedYield : Option ℚ
  idealYield : ℚ
  totalYield : Option ℚ
  expectedIncome : Option ℤ
  potentialIncome : Option ℤ
  efficiency : Option ℚ
  yieldGap : Option ℚ
  recommendations : List Recommendation
  confidenceLevel : ℤ
deriving DecidableEq

/-- The product `a * b` of two numbers either of which may be `NaN`. -/
def mulNaN (a b : Option ℚ) : Option ℚ :=
  match a, b with
  | some x, some y => some (x * y)
  | _, _ => none

/-- The comparison `x < bound` on a number that may be `NaN`: false on `NaN`. -/
def ltNaN (x : Option ℚ) (bound : ℚ) : Bool :=
  match x with
  | some v => decide (v < bound)
  | none => false

/-- The comparison `x >= bound` on a number that may be `NaN`: false on `NaN`. -/
def geNaN (x : Option ℚ) (bound : ℚ) : Bool :=
  match x with
  | some v => decide (v ≥ bound)
  | none => false

/-- The test `(predictedYield / idealYield) * 100 < bound` when the predicted yield may
be `NaN`: false on `NaN`. -/
def efficiencyBelowNaN (predictedYield : Option ℚ) (idealYield bound : ℚ) : Bool :=
  match predictedYield with
  | some p => efficiencyBelow p idealYield bound
  | none => false

/-- The function `generateOptimizationRoadmap` on a record whose fertilizer quantity
may be `NaN` and with a predicted yield that may be `NaN`. -/
def generateOptimizationRoadmapNaN (cropData : CropDataNaN) (predictedYield : Option ℚ)
    (idealYield : ℚ) : List Recommendation :=
  let recommendations : List Recommendation := []
  let recommendations :=
    if cropData.soilType ≠ "Loam" then recommendations ++ [recommendationOf soil_improvement]
    else recommendations
  let recommendations :=
    if cropData.irrigationMethod ≠ "Drip" then
      recommendations ++ [recommendationOf irrigation_upgrade]
    else recommendations
  let recommendations :=
    if cropData.seedType ≠ "Hybrid" then recommendations ++ [recommendationOf hybrid_seeds]
    else recommendations
  let recommendations :=
    if cropData.fertilizerType ≠ "NPK" ∨ ltNaN cropData.fertilizerQuantity 120 = true then
      recommendations ++ [recommendationOf fertilizer_optimization]
    else recommendations
  let recommendations :=
    if cropData.previousCrop = "Rice" then recommendations ++ [recommendationOf crop_rotation]
    else recommendations
  let recommendations :=
    if efficiencyBelowNaN predictedYield idealYield 40 then
      recommendations ++ [extensionServicesMessage]
    else if efficiencyBelowNaN predictedYield idealYield 70 then
      recommendations ++ [precisionAgricultureMessage]
    else recommendations
  recommendations.take 5

/-- The function `calculateConfidence` on the record built by the form handler; it reads
the four categorical fields only. -/
def calculateConfidenceNaN (cropData : CropDataNaN) : ℤ :=
  let confidence : ℤ := 85
  let confidence :=
    if cropData.irrigationMethod = "Drip" then confidence + 5
    else if cropData.irrigationMethod = "Rain-fed" then confidence - 10
    else confidence
  let confidence := if cropData.seedType = "Hybrid" then confidence + 3 else confidence
  let confidence :=
    if cropData.fertilizerType = "None" then confidence - 8
    else if cropData.fertilizerType = "NPK" then confidence + 2
    else confidence
  let confidence :=
    if cropData.soilType = "Loam" then confidence + 3
    else if cropData.soilType = "Sandy" then confidence - 5
    else confidence
  min (max confidence 60) 95

/-- The product of the six table factors, source lines 479 to 484, each factor
possibly `NaN`. -/
def tableProductNaN (cropData : CropDataNaN) : Option ℚ :=
  let baseYield := lookupOrNaN soil_base_yields cropData.soilType 3.0
  let baseYield := mulNaN baseYield (lookupOrNaN terrain_adjustments cropData.terrainType 1.0)
  let baseYield :=
    mulNaN baseYield (lookupOrNaN irrigation_multipliers cropData.irrigationMethod 1.0)
  let baseYield := mulNaN baseYield (lookupOrNaN fertilizer_effects cropData.fertilizerType 1.0)
  let baseYield := mulNaN baseYield (lookupOrNaN seed_bonuses cropData.seedType 1.0)
  mulNaN baseYield (lookupOrNaN previous_crop_effects cropData.previousCrop 1.0)

/-- The value `baseYield` of `calculateYieldPrediction` after source line 487, possibly
`NaN`: `Math.min` returns `NaN` when an argument is `NaN`. -/
def baseYieldNaN (cropData : CropDataNaN) : Option ℚ :=
  let baseYield := tableProductNaN cropData
  let fertilizerBonus : Option ℚ :=
    (cropData.fertilizerQuantity.map fun q => q / 135 * 0.15).map fun x => min x 0.25
  mulNaN baseYield (fertilizerBonus.map fun b => 1 + b)

/-- The function `calculateYieldPrediction` with `NaN` propagated through the arithmetic,
through `Math.min` and through `Math.round`. -/
def calculateYieldPredictionNaN (cropData : CropDataNaN) (randomFactor : ℚ) :
    PredictionResultNaN :=
  let predictedYield : Option ℚ := mulNaN (baseYieldNaN cropData) (some randomFactor)
  let idealYield := theoretical_max_yield
  let efficiency : Option ℚ :=
    (predictedYield.map fun p => p / idealYield * 100).map fun e => min e 100
  let totalYield : Option ℚ := mulNaN predictedYield cropData.landArea
  let expectedIncome : Option ℚ := mulNaN totalYield (some rice_price_per_ton)
  let potentialIncome : Option ℚ :=
    mulNaN (mulNaN (some idealYield) cropData.landArea) (some rice_price_per_ton)
  let recommendations := generateOptimizationRoadmapNaN cropData predictedYield idealYield
  { predictedYield := predictedYield.map fun p => (mathRound (p * 100) : ℚ) / 100
    idealYield := (mathRound (idealYield * 100) : ℚ) / 100
    totalYield := totalYield.map fun t => (mathRound (t * 100) : ℚ) / 100
    expectedIncome := expectedIncome.map fun x => mathRound x
    potentialIncome := potentialIncome.map fun x => mathRound x
    efficiency := efficiency.map fun e => (mathRound (e * 10) : ℚ) / 10
    yieldGap := predictedYield.map fun p => (mathRound ((idealYield - p) * 100) : ℚ) / 100
    recommendations := recommendations
    confidenceLevel := calculateConfidenceNaN cropData }

/-- A record of numbers as the record the form handler would build from it. -/
def CropData.toNaN (cropData : CropData) : CropDataNaN :=
  { landArea := some cropData.landArea, soilType := cropData.soilType,
    terrainType := cropData.terrainType, irrigationMethod := cropData.irrigationMethod,
    fertilizerType := cropData.fertilizerType,
    fertilizerQuantity := some cropData.fertilizerQuantity,
    seedType := cropData.seedType, previousCrop := cropData.previousCrop }

/-- A result of numbers as a result none of whose fields is `NaN`. -/
def PredictionResult.toNaN (result : PredictionResult) : PredictionResultNaN :=
  { predictedYield := some result.predictedYield, idealYield := result.idealYield,
    totalYield := some result.totalYield, expectedIncome := some result.expectedIncome,
    potentialIncome := some result.potentialIncome, efficiency := some result.efficiency,
    yieldGap := some result.yieldGap, recommendations := result.recommendations,
    confidenceLevel := result.confidenceLevel }

/-- None of the six categorical values of the record names a property inherited from
`Object.prototype`. -/
def noInheritedKey (cropData : CropData) : Prop :=
  cropData.soilType ∉ objectPrototypeKeys ∧ cropData.terrainType ∉ objectPrototypeKeys ∧
    cropData.irrigationMethod ∉ objectPrototypeKeys ∧
    cropData.fertilizerType ∉ objectPrototypeKeys ∧
    cropData.seedType ∉ objectPrototypeKeys ∧ cropData.previousCrop ∉ objectPrototypeKeys

/-! ## Growth timeline in a time zone -/

/-- The local time zone of the machine: the offset of local time from UTC, in
milliseconds, at a UTC time value and at a local time value. -/
structure TimeZone where
  offsetAtUTC : ℤ → ℤ
  offsetAtLocal : ℤ → ℤ

/-- The largest magnitude of a valid time value, 8.64 × 10¹⁵ ms. -/
def maxTimeValue : ℤ := 8640000000000000

/-- The abstract operation `TimeClip`: a time value beyond the range is `NaN`. -/
def timeClip (time : ℤ) : Option ℤ :=
  if |time| ≤ maxTimeValue then some time else none

/-- The time value left in `harvestDate` by `harvestDate.setDate(harvestDate.getDate() +
110)` for a valid `plantDate`: the local time of the planting instant, moved 110 calendar
days ahead at the same time of day, converted back to UTC with the offset in force at
that local time, and clipped to the range of time values. -/
def harvestTimeValue (zone : TimeZone) (plantDate : ℤ) : Option ℤ :=
  let localTime := plantDate + zone.offsetAtUTC plantDate
  let newDate := localTime + 110 * msPerDay
  timeClip (newDate - zone.offsetAtLocal newDate)

/-- The function `calculateGrowthTimeline` run in the time zone `zone`.  It differs from
`calculateGrowthTimeline` only in `harvestDate` and `daysToHarvest`: `setDate` works in
local time and an out-of-range harvest date is invalid, which makes `daysToHarvest`
`NaN`. -/
def calculateGrowthTimelineIn (zone : TimeZone) (plantDate : Option ℤ) (today : ℤ) :
    Timeline :=
  match plantDate with
  | none =>
    { currentStage := .harvest_ready, stageProgress := min 100 100,
      daysSincePlanting := none, daysToHarvest := none, harvestDate := none }
  | some plantDate =>
    let daysSincePlanting : ℤ := mathFloor (((today - plantDate : ℤ) : ℚ) / (msPerDay : ℚ))
    let harvestDate : Option ℤ := harvestTimeValue zone plantDate
    let daysToHarvest : Option ℤ :=
      harvestDate.map fun h => max 0 (mathFloor (((h - today : ℤ) : ℚ) / (msPerDay : ℚ)))
    let stage : Stage × ℚ :=
      if daysSincePlanting ≥ 0 ∧ daysSincePlanting ≤ 10 then
        (.germination, ((daysSincePlanting : ℚ) / 10) * 100)
      else if daysSincePlanting ≤ 30 then
        (.seedling, (((daysSincePlanting : ℚ) - 10) / 20) * 100)
      else if daysSincePlanting ≤ 60 then
        (.tillering, (((daysSincePlanting : ℚ) - 30) / 30) * 100)
      else if daysSincePlanting ≤ 80 then
        (.stem_elongation, (((daysSincePlanting : ℚ) - 60) / 20) * 100)
      else if daysSincePlanting ≤ 100 then
        (.heading, (((daysSincePlanting : ℚ) - 80) / 20) * 100)
      else if daysSincePlanting ≤ 120 then
        (.maturity, (((daysSincePlanting : ℚ) - 100) / 20) * 100)
      else
        (.harvest_ready, 100)
    { currentStage := stage.1, stageProgress := min stage.2 100,
      daysSincePlanting := some (max 0 daysSincePlanting),
      daysToHarvest := daysToHarvest, harvestDate := harvestDate }

/-- A time zone with the same offset from UTC at every instant. -/
def fixedOffset (offset : ℤ) : TimeZone :=
  { offsetAtUTC := fun _ => offset, offsetAtLocal := fun _ => offset }

/-- Indian Standard Time, UTC+05:30 all year. -/
def indiaStandardTime : TimeZone := fixedOffset (5 * 3600000 + 1800000)

/-- Milliseconds in an hour. -/
def msPerHour : ℤ := 3600000

/-- The offsets of New York during 2024: UTC-5, and UTC-4 from 10 March 02:00 local
(07:00 UTC) to 3 November 02:00 local (06:00 UTC). -/
def newYork2024 : TimeZone :=
  { offsetAtUTC := fun t =>
      if dateOf 2024 3 10 + 7 * msPerHour ≤ t ∧ t < dateOf 2024 11 3 + 6 * msPerHour then
        -4 * msPerHour
      else -5 * msPerHour
    offsetAtLocal := fun t =>
      if dateOf 2024 3 10 + 2 * msPerHour ≤ t ∧ t < dateOf 2024 11 3 + 2 * msPerHour then
        -4 * msPerHour
      else -5 * msPerHour }

/-! ## Historical log -/

/-- The fields of `currentPrediction` (the spread of `cropData`, the prediction and the
timeline) that `addToHistoricalData` reads. -/
structure PredictionData where
  plantingDate : String
  farmerName : String
  landArea : ℚ
  soilType : String
  terrainType : String
  irrigationMethod : String
  fertilizerType : String
  fertilizerQuantity : ℚ
  seedType : String
  previousCrop : String
  predictedYield : ℚ
  efficiency : ℚ
  expectedIncome : ℤ
  expectedHarvest : String
deriving DecidableEq

/-- An element of `appData.historical_records`. -/
structure HistoricalRecord where
  id : ℕ
  date : String
  farmer_name : String
  land_area : ℚ
  soil_type : String
  terrain : String
  irrigation : String
  fertilizer_type : String
  fertilizer_quantity : ℚ
  seed_type : String
  previous_crop : String
  predicted_yield : ℚ
  efficiency : ℚ
  income : ℤ
  harvest_date : String
deriving DecidableEq

/-- What the log functions read from the page: whether the table body exists, and the
values of the search box and of the sort selector when these elements exist. -/
structure Page where
  historicalTableBody : Bool
  searchInput : Option String
  sortSelect : Option String

/-- The library functions the log functions call.  `sortedCopy sortBy records` is the
array produced by `[...records].sort(comparator)` for the comparator selected by
`sortBy`; the other three are the string methods of the same names. -/
structure Builtins where
  toLowerCase : String → String
  trim : String → String
  includes : String → String → Bool
  sortedCopy : String → List HistoricalRecord → List HistoricalRecord

/-- The mutable state touched by the log functions: the array
`appData.historical_records` and the rows last rendered into the table body. -/
structure LogState where
  historical_records : List HistoricalRecord
  rows : List HistoricalRecord

/-- The function `displayHistoricalData`: replaces the rendered rows, or returns at once
when the table body is missing. -/
def displayHistoricalData (page : Page) (state : LogState)
    (records : List HistoricalRecord) : LogState :=
  if !page.historicalTableBody then state
  else { state with rows := records }

/-- The object `newRecord` built by `addToHistoricalData`. -/
def newRecord (state : LogState) (predictionData : PredictionData) : HistoricalRecord :=
  { id := state.historical_records.length + 1
    date := predictionData.plantingDate
    farmer_name := predictionData.farmerName
    land_area := predictionData.landArea
    soil_type := predictionData.soilType
    terrain := predictionData.terrainType
    irrigation := predictionData.irrigationMethod
    fertilizer_type := predictionData.fertilizerType
    fertilizer_quantity := predictionData.fertilizerQuantity
    seed_type := predictionData.seedType
    previous_crop := predictionData.previousCrop
    predicted_yield := predictionData.predictedYield
    efficiency := predictionData.efficiency
    income := predictionData.expectedIncome
    harvest_date := predictionData.expectedHarvest }

/-- The function `addToHistoricalData` (`push` appends to the array in place; the class
changes on the surrounding elements are not part of the state). -/
def addToHistoricalData (page : Page) (state : LogState) (predictionData : PredictionData) :
    LogState :=
  let state := { state with
    historical_records := state.historical_records ++ [newRecord state predictionData] }
  displayHistoricalData page state state.historical_records

/-- The function `handleSearch`. -/
def handleSearch (lib : Builtins) (page : Page) (state : LogState) : LogState :=
  match page.searchInput with
  | none => state
  | some value =>
    let searchTerm := lib.trim (lib.toLowerCase value)
    if searchTerm = "" then displayHistoricalData page state state.historical_records
    else
      let filteredRecords := state.historical_records.filter fun record =>
        lib.includes (lib.toLowerCase record.farmer_name) searchTerm ||
        lib.includes (lib.toLowerCase record.soil_type) searchTerm ||
        lib.includes (lib.toLowerCase record.irrigation) searchTerm ||
        lib.includes (lib.toLowerCase record.fertilizer_type) searchTerm
      displayHistoricalData page state filteredRecords

/-- The function `handleSort`: the spread `[...appData.historical_records]` is a fresh
array, so `sort` reorders the copy. -/
def handleSort (lib : Builtins) (page : Page) (state : LogState) : LogState :=
  match page.sortSelect with
  | none => state
  | some sortBy =>
    let sortedRecords := lib.sortedCopy sortBy state.historical_records
    displayHistoricalData page state sortedRecords

/-! ## Reference data for the statements -/

/-- The constant `fertilizerBonus` of `calculateYieldPrediction` as a function of the
fertilizer quantity. -/
def fertilizerBonus (fertilizerQuantity : ℚ) : ℚ :=
  min (fertilizerQuantity / 135 * 0.15) 0.25

/-- The value a table gives for a key, or the default when the key is not listed. -/
def tableValue (table : List (String × ℚ)) (key : String) (default : ℚ) : ℚ :=
  (table.lookup key).getD default

/-- The yield formula in the words of the specification: soil value times the five
multipliers times one plus the capped fertilizer bonus times the random factor. -/
def yieldFormula (cropData : CropData) (randomFactor : ℚ) : ℚ :=
  tableValue soil_base_yields cropData.soilType 3.0
    * tableValue terrain_adjustments cropData.terrainType 1.0
    * tableValue irrigation_multipliers cropData.irrigationMethod 1.0
    * tableValue fertilizer_effects cropData.fertilizerType 1.0
    * tableValue seed_bonuses cropData.seedType 1.0
    * tableValue previous_crop_effects cropData.previousCrop 1.0
    * (1 + min (cropData.fertilizerQuantity / 135 * 0.15) 0.25)
    * randomFactor

/-- The confidence formula in the words of the specification: 85 plus the four deltas,
clamped to [60, 95]. -/
def confidenceFormula (cropData : CropData) : ℤ :=
  let a : ℤ :=
    if cropData.irrigationMethod = "Drip" then 5
    else if cropData.irrigationMethod = "Rain-fed" then -10 else 0
  let b : ℤ := if cropData.seedType = "Hybrid" then 3 else 0
  let c : ℤ :=
    if cropData.fertilizerType = "None" then -8
    else if cropData.fertilizerType = "NPK" then 2 else 0
  let d : ℤ :=
    if cropData.soilType = "Loam" then 3
    else if cropData.soilType = "Sandy" then -5 else 0
  min (max (85 + a + b + c + d) 60) 95

/-- The catalog recommendations whose rules hold, in rule order. -/
def catalogPart (cropData : CropData) : List Recommendation :=
  (if cropData.soilType ≠ "Loam" then [recommendationOf soil_improvement] else [])
    ++ (if cropData.irrigationMethod ≠ "Drip" then [recommendationOf irrigation_upgrade]
        else [])
    ++ (if cropData.seedType ≠ "Hybrid" then [recommendationOf hybrid_seeds] else [])
    ++ (if cropData.fertilizerType ≠ "NPK" ∨ cropData.fertilizerQuantity < 120 then
          [recommendationOf fertilizer_optimization] else [])
    ++ (if cropData.previousCrop = "Rice" then [recommendationOf crop_rotation] else [])

/-- The efficiency-tier message pushed before truncation, if any. -/
def tierPart (predictedYield idealYield : ℚ) : List Recommendation :=
  if efficiencyBelow predictedYield idealYield 40 then [extensionServicesMessage]
  else if efficiencyBelow predictedYield idealYield 70 then [precisionAgricultureMessage]
  else []

/-- The fixed rule-evaluation sequence of `generateOptimizationRoadmap`: the five catalog
recommendations in source order, followed by the efficiency-tier message `tier`. -/
def ruleSequence (tier : Recommendation) : List Recommendation :=
  [recommendationOf soil_improvement, recommendationOf irrigation_upgrade,
   recommendationOf hybrid_seeds, recommendationOf fertilizer_optimization,
   recommendationOf crop_rotation, tier]

/-- The conditions of `appData.ideal_conditions` on a farm of the given area. -/
def idealRecord (landArea : ℚ) : CropData :=
  { landArea := landArea, soilType := "Loam", terrainType := "Flat",
    irrigationMethod := "Drip", fertilizerType := "NPK", fertilizerQuantity := 135,
    seedType := "Hybrid", previousCrop := "Vegetables" }

/-- A record none of whose categorical values is a key of its table. -/
def unlistedRecord : CropData :=
  { landArea := 1, soilType := "Chalk", terrainType := "Terraced",
    irrigationMethod := "Manual", fertilizerType := "Lime", fertilizerQuantity := 0,
    seedType := "Heirloom", previousCrop := "Maize" }

/-- The value of the local variable `confidence` of `calculateConfidence` when the
`return` statement is reached, before `Math.max` and `Math.min` are applied. -/
def confidenceBeforeClamp (cropData : CropData) : ℤ :=
  let confidence : ℤ := 85
  let confidence :=
    if cropData.irrigationMethod = "Drip" then confidence + 5
    else if cropData.irrigationMethod = "Rain-fed" then confidence - 10
    else confidence
  let confidence := if cropData.seedType = "Hybrid" then confidence + 3 else confidence
  let confidence :=
    if cropData.fertilizerType = "None" then confidence - 8
    else if cropData.fertilizerType = "NPK" then confidence + 2
    else confidence
  let confidence :=
    if cropData.soilType = "Loam" then confidence + 3
    else if cropData.soilType = "Sandy" then confidence - 5
    else confidence
  confidence

/-- All five condition rules of `generateOptimizationRoadmap` hold: soil is not Loam,
irrigation is not Drip, seed is not Hybrid, fertilizer is not NPK or its quantity is
below 120, and the previous crop is Rice. -/
def allRulesHold (cropData : CropData) : Prop :=
  cropData.soilType ≠ "Loam" ∧ cropData.irrigationMethod ≠ "Drip" ∧
    cropData.seedType ≠ "Hybrid" ∧
    (cropData.fertilizerType ≠ "NPK" ∨ cropData.fertilizerQuantity < 120) ∧
    cropData.previousCrop = "Rice"

/-- The five catalog recommendations in rule order. -/
def catalogEntries : List Recommendation :=
  [recommendationOf soil_improvement, recommendationOf irrigation_upgrade,
   recommendationOf hybrid_seeds, recommendationOf fertilizer_optimization,
   recommendationOf crop_rotation]

/-- A numeric record whose soil type, "constructor", is not a key of the soil table and
names a property inherited from `Object.prototype`; every other value is listed. -/
def inheritedSoilRecord : CropData :=
  { landArea := 1, soilType := "constructor", terrainType := "Flat",
    irrigationMethod := "Flood", fertilizerType := "Urea", fertilizerQuantity := 0,
    seedType := "Normal", previousCrop := "None" }

/-- A record none of whose six categorical values is a key of its table, with soil type
"toString", the name of an inherited property. -/
def unknownInheritedRecord : CropData :=
  { landArea := 1, soilType := "toString", terrainType := "Terraced",
    irrigationMethod := "Manual", fertilizerType := "Lime", fertilizerQuantity := 0,
    seedType := "Heirloom", previousCrop := "Maize" }

/-- The ideal-conditions record on one hectare with the terrain replaced by "valueOf",
which is not a key of the terrain table and names an inherited property. -/
def inheritedTerrainRecord : CropData :=
  { idealRecord 1 with terrainType := "valueOf" }



/-- A record of numbers on which `generateOptimizationRoadmap` takes the branches that
the code takes on `cropData`: a `NaN` quantity is not below 120, like the quantity 120. -/
def CropDataNaN.branchRecord (cropData : CropDataNaN) : CropData :=
  { landArea := cropData.landArea.getD 0, soilType := cropData.soilType,
    terrainType := cropData.terrainType, irrigationMethod := cropData.irrigationMethod,
    fertilizerType := cropData.fertilizerType,
    fertilizerQuantity := cropData.fertilizerQuantity.getD 120,
    seedType := cropData.seedType, previousCrop := cropData.previousCrop }

/-- An NPK record whose fertilizer quantity field was left empty, so that `parseInt`
returned `NaN`. -/
def npkUnreadQuantity : CropDataNaN :=
  { landArea := some 1, soilType := "Loam", terrainType := "Flat",
    irrigationMethod := "Drip", fertilizerType := "NPK", fertilizerQuantity := none,
    seedType := "Hybrid", previousCrop := "Vegetables" }

/-! ## Auxiliary lemmas -/

theorem lookupOr_pos (table : List (String × ℚ)) (key : String) (fallback : ℚ)
    (hf : 0 < fallback) (ht : ∀ p ∈ table, 0 < p.2) : 0 < lookupOr table key fallback := by
  unfold lookupOr
  induction table with
  | nil => simpa [List.lookup] using hf
  | cons hd tl ih =>
    obtain ⟨k, v⟩ := hd
    have hv : 0 < v := ht (k, v) (List.mem_cons_self _ _)
    have htl : ∀ p ∈ tl, 0 < p.2 := fun p hp => ht p (List.mem_cons_of_mem _ hp)
    by_cases hk : key = k
    · subst hk
      simp [List.lookup, hv.ne.symm, hv]
    · have hk2 : (key == k) = false := by simpa using hk
      simpa [List.lookup, hk2] using ih htl

theorem lookupOr_absent (table : List (String × ℚ)) (key : String) (fallback : ℚ)
    (h : table.lookup key = none) : lookupOr table key fallback = fallback := by
  simp [lookupOr, h]

theorem soil_pos (key : String) : 0 < lookupOr soil_base_yields key 3.0 := by
  apply lookupOr_pos
  · norm_num
  · intro p hp
    simp only [soil_base_yields, List.mem_cons, List.mem_singleton, List.mem_nil_iff,
      or_false] at hp
    rcases hp with h | h | h | h | h <;> subst h <;> norm_num

theorem terrain_pos (key : String) : 0 < lookupOr terrain_adjustments key 1.0 := by
  apply lookupOr_pos
  · norm_num
  · intro p hp
    simp only [terrain_adjustments, List.mem_cons, List.mem_singleton, List.mem_nil_iff,
      or_false] at hp
    rcases hp with h | h | h | h | h <;> subst h <;> norm_num

theorem irrigation_pos (key : String) : 0 < lookupOr irrigation_multipliers key 1.0 := by
  apply lookupOr_pos
  · norm_num
  · intro p hp
    simp only [irrigation_multipliers, List.mem_cons, List.mem_singleton, List.mem_nil_iff,
      or_false] at hp
    rcases hp with h | h | h | h | h <;> subst h <;> norm_num

theorem fertilizer_pos (key : String) : 0 < lookupOr fertilizer_effects key 1.0 := by
  apply lookupOr_pos
  · norm_num
  · intro p hp
    simp only [fertilizer_effects, List.mem_cons, List.mem_singleton, List.mem_nil_iff,
      or_false] at hp
    rcases hp with h | h | h | h | h | h <;> subst h <;> norm_num

theorem seed_pos (key : String) : 0 < lookupOr seed_bonuses key 1.0 := by
  apply lookupOr_pos
  · norm_num
  · intro p hp
    simp only [seed_bonuses, List.mem_cons, List.mem_singleton, List.mem_nil_iff,
      or_false] at hp
    rcases hp with h | h <;> subst h <;> norm_num

theorem previous_crop_pos (key : String) : 0 < lookupOr previous_crop_effects key 1.0 := by
  apply lookupOr_pos
  · norm_num
  · intro p hp
    simp only [previous_crop_effects, List.mem_cons, List.mem_singleton, List.mem_nil_iff,
      or_false] at hp
    rcases hp with h | h | h | h | h | h <;> subst h <;> norm_num

/-- With a non-negative fertilizer quantity the deterministic yield is positive. -/
theorem baseYield_pos (cropData : CropData) (hq : 0 ≤ cropData.fertilizerQuantity) :
    0 < baseYield cropData := by
  unfold baseYield
  have hb : (0 : ℚ) ≤ min (cropData.fertilizerQuantity / 135 * 0.15) 0.25 := by
    apply le_min
    · have : (0 : ℚ) ≤ cropData.fertilizerQuantity / 135 := div_nonneg hq (by norm_num)
      exact mul_nonneg this (by norm_num)
    · norm_num
  have h1 := soil_pos cropData.soilType
  have h2 := terrain_pos cropData.terrainType
  have h3 := irrigation_pos cropData.irrigationMethod
  have h4 := fertilizer_pos cropData.fertilizerType
  have h5 := seed_pos cropData.seedType
  have h6 := previous_crop_pos cropData.previousCrop
  have h7 : (0 : ℚ) < 1 + min (cropData.fertilizerQuantity / 135 * 0.15) 0.25 := by linarith
  exact mul_pos (mul_pos (mul_pos (mul_pos (mul_pos (mul_pos h1 h2) h3) h4) h5) h6) h7

theorem mathRound_nonneg (x : ℚ) (h : 0 ≤ x) : 0 ≤ mathRound x := by
  unfold mathRound
  exact Int.floor_nonneg.mpr (by linarith)

theorem mathRound_le_of_le (x : ℚ) (n : ℤ) (h : x ≤ n) : mathRound x ≤ n := by
  unfold mathRound
  have : ⌊x + 1 / 2⌋ < n + 1 := by
    rw [Int.floor_lt]
    push_cast
    linarith
  omega

theorem mathRound_intCast (n : ℤ) : mathRound (n : ℚ) = n := by
  unfold mathRound
  rw [Int.floor_eq_iff]
  constructor <;> linarith

/-! ## Scoring engine: settled claims -/

/-- In the numeric reading, with a non-negative fertilizer quantity and a random factor in
[0.95, 1.05], the efficiency (after its one-decimal rounding) lies in [0, 100]. -/
theorem efficiency_in_range (cropData : CropData) (randomFactor : ℚ)
    (hq : 0 ≤ cropData.fertilizerQuantity) (hlo : 0.95 ≤ randomFactor)
    (_hhi : randomFactor ≤ 1.05) :
    0 ≤ (calculateYieldPrediction cropData randomFactor).efficiency ∧
      (calculateYieldPrediction cropData randomFactor).efficiency ≤ 100 := by
  have hb := baseYield_pos cropData hq
  have hr : (0 : ℚ) < randomFactor := by
    have : (0 : ℚ) < 0.95 := by norm_num
    linarith
  have hp : 0 ≤ baseYield cropData * randomFactor / theoretical_max_yield * 100 := by
    have : (0 : ℚ) < theoretical_max_yield := by norm_num [theoretical_max_yield]
    positivity
  simp only [calculateYieldPrediction]
  set e := min (baseYield cropData * randomFactor / theoretical_max_yield * 100) 100 with he
  have he0 : 0 ≤ e := le_min hp (by norm_num)
  have he1 : e ≤ 100 := min_le_right _ _
  have h0 : 0 ≤ mathRound (e * 10) := mathRound_nonneg _ (by linarith)
  have h1 : mathRound (e * 10) ≤ 1000 := mathRound_le_of_le _ 1000 (by push_cast; linarith)
  have h0q : (0 : ℚ) ≤ (mathRound (e * 10) : ℚ) := by exact_mod_cast h0
  have h1q : (mathRound (e * 10) : ℚ) ≤ 1000 := by exact_mod_cast h1
  constructor
  · positivity
  · linarith

/-- C2. For every conditions record, recognised values or not, `calculateConfidence`
returns a value in [60, 95]. -/
theorem confidence_in_range (cropData : CropData) :
    60 ≤ calculateConfidence cropData ∧ calculateConfidence cropData ≤ 95 := by
  unfold calculateConfidence
  exact ⟨le_min (le_max_right _ _) (by norm_num), min_le_right _ _⟩

theorem ruleSequence_nodup (tier : Recommendation)
    (h : tier = extensionServicesMessage ∨ tier = precisionAgricultureMessage) :
    (ruleSequence tier).Nodup := by
  rcases h with h | h <;> subst h <;> decide

theorem push_if_sublist {α : Type} (c : Prop) [Decidable c] (l m : List α) (x : α)
    (h : List.Sublist l m) :
    List.Sublist (if c then l ++ [x] else l) (m ++ [x]) := by
  split_ifs
  · exact List.Sublist.append h (List.Sublist.refl _)
  · exact h.trans (List.sublist_append_left _ _)

/-- The roadmap is a sublist of the rule sequence closed by one of the two tier messages. -/
theorem roadmap_sublist (cropData : CropData) (predictedYield idealYield : ℚ) :
    ∃ tier, (tier = extensionServicesMessage ∨ tier = precisionAgricultureMessage) ∧
      List.Sublist (generateOptimizationRoadmap cropData predictedYield idealYield)
        (ruleSequence tier) := by
  have s1 := push_if_sublist (cropData.soilType ≠ "Loam") [] []
    (recommendationOf soil_improvement) (List.Sublist.refl _)
  have s2 := push_if_sublist (cropData.irrigationMethod ≠ "Drip") _ _
    (recommendationOf irrigation_upgrade) s1
  have s3 := push_if_sublist (cropData.seedType ≠ "Hybrid") _ _
    (recommendationOf hybrid_seeds) s2
  have s4 := push_if_sublist
    (cropData.fertilizerType ≠ "NPK" ∨ cropData.fertilizerQuantity < 120) _ _
    (recommendationOf fertilizer_optimization) s3
  have s5 := push_if_sublist (cropData.previousCrop = "Rice") _ _
    (recommendationOf crop_rotation) s4
  by_cases h40 : efficiencyBelow predictedYield idealYield 40 = true
  · refine ⟨extensionServicesMessage, Or.inl rfl, ?_⟩
    have s6 := List.Sublist.append s5 (List.Sublist.refl [extensionServicesMessage])
    refine (List.take_sublist 5 _).trans ?_
    simp only [h40, if_true]
    exact s6
  · refine ⟨precisionAgricultureMessage, Or.inr rfl, ?_⟩
    have s6 := push_if_sublist (efficiencyBelow predictedYield idealYield 70 = true) _ _
      precisionAgricultureMessage s5
    refine (List.take_sublist 5 _).trans ?_
    simp only [h40]
    exact s6

/-- C3. For every conditions record and every predicted/ideal yield pair, the list
returned by `generateOptimizationRoadmap` has at most five entries, repeats no entry,
and is an order-preserving subsequence of the fixed sequence soil improvement,
irrigation upgrade, hybrid seeds, fertilizer optimization, crop rotation,
efficiency-tier message. -/
theorem roadmap_ordered (cropData : CropData) (predictedYield idealYield : ℚ) :
    (generateOptimizationRoadmap cropData predictedYield idealYield).length ≤ 5 ∧
    (generateOptimizationRoadmap cropData predictedYield idealYield).Nodup ∧
    ∃ tier, (tier = extensionServicesMessage ∨ tier = precisionAgricultureMessage) ∧
      List.Sublist (generateOptimizationRoadmap cropData predictedYield idealYield)
        (ruleSequence tier) := by
  obtain ⟨tier, ht, hs⟩ := roadmap_sublist cropData predictedYield idealYield
  refine ⟨?_, hs.nodup (ruleSequence_nodup tier ht), tier, ht, hs⟩
  unfold generateOptimizationRoadmap
  exact List.length_take_le 5 _

theorem mathRound_eq (x : ℚ) (n : ℤ) (h1 : (n : ℚ) ≤ x + 1 / 2) (h2 : x + 1 / 2 < n + 1) :
    mathRound x = n := by
  unfold mathRound
  rw [Int.floor_eq_iff]
  exact ⟨h1, h2⟩

theorem baseYield_idealRecord (landArea : ℚ) :
    baseYield (idealRecord landArea) = 12.03475 := by
  simp [baseYield, idealRecord, lookupOr, soil_base_yields, terrain_adjustments,
    irrigation_multipliers, fertilizer_effects, seed_bonuses, previous_crop_effects,
    List.lookup]
  norm_num

/-- C8, as stated, fails: for the record Loam, Flat, Drip, NPK, 135, Hybrid, Vegetables,
area 1 and random factor 1.0 the predicted yield returned is 12.03, not 10.81. -/
theorem ideal_yield_not_10_81 :
    (calculateYieldPrediction (idealRecord 1) 1.0).predictedYield = 12.03 ∧
    (calculateYieldPrediction (idealRecord 1) 1.0).predictedYield ≠ 10.81 := by
  have h : (calculateYieldPrediction (idealRecord 1) 1.0).predictedYield = 12.03 := by
    simp only [calculateYieldPrediction, baseYield_idealRecord]
    rw [mathRound_eq (12.03475 * 1.0 * 100) 1203 (by norm_num) (by norm_num)]
    norm_num
  refine ⟨h, ?_⟩
  rw [h]
  norm_num

/-- C8, amended. For the record Loam, Flat, Drip, NPK, 135, Hybrid, Vegetables, area 1
and random factor 1.0 the predicted yield is the product
4.0 × 1.0 × 1.4 × 1.3 × 1.25 × 1.15 × 1.15, which is 12.03475, and the value returned
(rounded to two decimals) is 12.03. -/
theorem ideal_yield_value :
    baseYield (idealRecord 1) * 1.0 = 4.0 * 1.0 * 1.4 * 1.3 * 1.25 * 1.15 * 1.15 ∧
    (4.0 * 1.0 * 1.4 * 1.3 * 1.25 * 1.15 * 1.15 : ℚ) = 12.03475 ∧
    (calculateYieldPrediction (idealRecord 1) 1.0).predictedYield = 12.03 := by
  refine ⟨?_, by norm_num, ?_⟩
  · rw [baseYield_idealRecord]
    norm_num
  · simp only [calculateYieldPrediction, baseYield_idealRecord]
    rw [mathRound_eq (12.03475 * 1.0 * 100) 1203 (by norm_num) (by norm_num)]
    norm_num

/-- C9. For the ideal-conditions record on any positive area and every random factor in
[0.95, 1.05], in particular 1.0, the efficiency returned is exactly 100. -/
theorem ideal_efficiency_capped (landArea randomFactor : ℚ) (_ha : 0 < landArea)
    (hlo : 0.95 ≤ randomFactor) (_hhi : randomFactor ≤ 1.05) :
    (calculateYieldPrediction (idealRecord landArea) randomFactor).efficiency = 100 := by
  simp only [calculateYieldPrediction, baseYield_idealRecord]
  have h : min (12.03475 * randomFactor / theoretical_max_yield * 100) 100 = 100 := by
    apply min_eq_right
    norm_num [theoretical_max_yield] at hlo ⊢
    linarith
  rw [h, mathRound_eq (100 * 10) 1000 (by norm_num) (by norm_num)]
  norm_num

/-- Instance of C9 on two hectares with random factor 1.0. -/
theorem ideal_efficiency_capped_witness :
    (0 : ℚ) < 2 ∧ (0.95 : ℚ) ≤ 1.0 ∧ (1.0 : ℚ) ≤ 1.05 ∧
      (calculateYieldPrediction (idealRecord 2) 1.0).efficiency = 100 :=
  ⟨by norm_num, by norm_num, by norm_num,
    ideal_efficiency_capped 2 1.0 (by norm_num) (by norm_num) (by norm_num)⟩

/-! ## Growth timeline: settled claims -/

theorem mathFloor_div_msPerDay (n : ℤ) :
    mathFloor ((n : ℚ) / (msPerDay : ℚ)) = n / msPerDay := by
  unfold mathFloor
  have h : (msPerDay : ℚ) = ((86400000 : ℕ) : ℚ) := by norm_num [msPerDay]
  have h2 : msPerDay = ((86400000 : ℕ) : ℤ) := by norm_num [msPerDay]
  rw [h, Rat.floor_intCast_div_natCast, h2]

theorem elapsedDays_eq (plantDate today : ℤ) :
    elapsedDays plantDate today = (today - plantDate) / msPerDay := by
  unfold elapsedDays
  exact mathFloor_div_msPerDay _

/-- The stage selected by the `if` chain, in terms of the elapsed whole days. -/
theorem timeline_stage (plantDate today : ℤ) :
    (calculateGrowthTimeline (some plantDate) today).currentStage =
      (if elapsedDays plantDate today ≥ 0 ∧ elapsedDays plantDate today ≤ 10 then
        Stage.germination
       else if elapsedDays plantDate today ≤ 30 then Stage.seedling
       else if elapsedDays plantDate today ≤ 60 then Stage.tillering
       else if elapsedDays plantDate today ≤ 80 then Stage.stem_elongation
       else if elapsedDays plantDate today ≤ 100 then Stage.heading
       else if elapsedDays plantDate today ≤ 120 then Stage.maturity
       else Stage.harvest_ready) := by
  simp only [calculateGrowthTimeline, elapsedDays]
  split_ifs <;> rfl

/-- The progress selected by the `if` chain, in terms of the elapsed whole days. -/
theorem timeline_progress (plantDate today : ℤ) :
    (calculateGrowthTimeline (some plantDate) today).stageProgress =
      min (if elapsedDays plantDate today ≥ 0 ∧ elapsedDays plantDate today ≤ 10 then
          ((elapsedDays plantDate today : ℚ) / 10) * 100
        else if elapsedDays plantDate today ≤ 30 then
          (((elapsedDays plantDate today : ℚ) - 10) / 20) * 100
        else if elapsedDays plantDate today ≤ 60 then
          (((elapsedDays plantDate today : ℚ) - 30) / 30) * 100
        else if elapsedDays plantDate today ≤ 80 then
          (((elapsedDays plantDate today : ℚ) - 60) / 20) * 100
        else if elapsedDays plantDate today ≤ 100 then
          (((elapsedDays plantDate today : ℚ) - 80) / 20) * 100
        else if elapsedDays plantDate today ≤ 120 then
          (((elapsedDays plantDate today : ℚ) - 100) / 20) * 100
        else 100) 100 := by
  simp only [calculateGrowthTimeline, elapsedDays]
  split_ifs <;> rfl

/-- Harvest date and days to harvest for a valid planting date. -/
theorem timeline_harvest (plantDate today : ℤ) :
    (calculateGrowthTimeline (some plantDate) today).harvestDate =
        some (plantDate + 110 * msPerDay) ∧
      (calculateGrowthTimeline (some plantDate) today).daysToHarvest =
        some (max 0 ((plantDate + 110 * msPerDay - today) / msPerDay)) := by
  simp only [calculateGrowthTimeline, mathFloor_div_msPerDay, and_self]

theorem elapsed_jan01_jan11 : elapsedDays (dateOf 2024 1 1) (dateOf 2024 1 11) = 10 := by
  rw [elapsedDays_eq]
  decide

theorem elapsed_jan02_jan01 : elapsedDays (dateOf 2024 1 2) (dateOf 2024 1 1) = -1 := by
  rw [elapsedDays_eq]
  decide

theorem elapsed_self (plantDate : ℤ) : elapsedDays plantDate plantDate = 0 := by
  rw [elapsedDays_eq]
  simp

theorem elapsedDays_mono (plantDate today₁ today₂ : ℤ) (h : today₁ ≤ today₂) :
    elapsedDays plantDate today₁ ≤ elapsedDays plantDate today₂ := by
  rw [elapsedDays_eq, elapsedDays_eq]
  exact Int.ediv_le_ediv (by decide) (by omega)

/-- C5, as stated, fails: with half-open day ranges day 10 would be seedling, but ten
whole days after planting (2024-01-01 to 2024-01-11) the stage returned is germination. -/
theorem stage_half_open_boundaries_fail :
    ¬ ∀ plantDate today : ℤ, 0 ≤ elapsedDays plantDate today →
      ((calculateGrowthTimeline (some plantDate) today).currentStage = Stage.germination ↔
        0 ≤ elapsedDays plantDate today ∧ elapsedDays plantDate today < 10) ∧
      ((calculateGrowthTimeline (some plantDate) today).currentStage = Stage.seedling ↔
        10 ≤ elapsedDays plantDate today ∧ elapsedDays plantDate today < 30) ∧
      ((calculateGrowthTimeline (some plantDate) today).currentStage = Stage.tillering ↔
        30 ≤ elapsedDays plantDate today ∧ elapsedDays plantDate today < 60) ∧
      ((calculateGrowthTimeline (some plantDate) today).currentStage
          = Stage.stem_elongation ↔
        60 ≤ elapsedDays plantDate today ∧ elapsedDays plantDate today < 80) ∧
      ((calculateGrowthTimeline (some plantDate) today).currentStage = Stage.heading ↔
        80 ≤ elapsedDays plantDate today ∧ elapsedDays plantDate today < 100) ∧
      ((calculateGrowthTimeline (some plantDate) today).currentStage = Stage.maturity ↔
        100 ≤ elapsedDays plantDate today ∧ elapsedDays plantDate today < 120) ∧
      ((calculateGrowthTimeline (some plantDate) today).currentStage = Stage.harvest_ready ↔
        120 ≤ elapsedDays plantDate today) := by
  intro h
  have h1 := (h (dateOf 2024 1 1) (dateOf 2024 1 11) (by rw [elapsed_jan01_jan11]; decide)).1
  rw [timeline_stage, elapsed_jan01_jan11] at h1
  simp at h1

/-- C5, amended. For every planting date and every now with elapsed whole days d ≥ 0 the
stage is germination iff 0 ≤ d ≤ 10, seedling iff 10 < d ≤ 30, tillering iff
30 < d ≤ 60, stem_elongation iff 60 < d ≤ 80, heading iff 80 < d ≤ 100, maturity iff
100 < d ≤ 120 and harvest_ready iff d > 120. -/
theorem stage_of_elapsed_days (plantDate today : ℤ)
    (hd : 0 ≤ elapsedDays plantDate today) :
    ((calculateGrowthTimeline (some plantDate) today).currentStage = Stage.germination ↔
      0 ≤ elapsedDays plantDate today ∧ elapsedDays plantDate today ≤ 10) ∧
    ((calculateGrowthTimeline (some plantDate) today).currentStage = Stage.seedling ↔
      10 < elapsedDays plantDate today ∧ elapsedDays plantDate today ≤ 30) ∧
    ((calculateGrowthTimeline (some plantDate) today).currentStage = Stage.tillering ↔
      30 < elapsedDays plantDate today ∧ elapsedDays plantDate today ≤ 60) ∧
    ((calculateGrowthTimeline (some plantDate) today).currentStage = Stage.stem_elongation ↔
      60 < elapsedDays plantDate today ∧ elapsedDays plantDate today ≤ 80) ∧
    ((calculateGrowthTimeline (some plantDate) today).currentStage = Stage.heading ↔
      80 < elapsedDays plantDate today ∧ elapsedDays plantDate today ≤ 100) ∧
    ((calculateGrowthTimeline (some plantDate) today).currentStage = Stage.maturity ↔
      100 < elapsedDays plantDate today ∧ elapsedDays plantDate today ≤ 120) ∧
    ((calculateGrowthTimeline (some plantDate) today).currentStage = Stage.harvest_ready ↔
      120 < elapsedDays plantDate today) := by
  rw [timeline_stage]
  generalize elapsedDays plantDate today = d at hd ⊢
  split_ifs <;> simp <;> omega

/-- Instance of the amended C5 ten whole days after planting on 2024-01-01. -/
theorem stage_of_elapsed_days_witness :
    0 ≤ elapsedDays (dateOf 2024 1 1) (dateOf 2024 1 11) ∧
    ((calculateGrowthTimeline (some (dateOf 2024 1 1)) (dateOf 2024 1 11)).currentStage = Stage.germination ↔
      0 ≤ elapsedDays (dateOf 2024 1 1) (dateOf 2024 1 11) ∧ elapsedDays (dateOf 2024 1 1) (dateOf 2024 1 11) ≤ 10) ∧
    ((calculateGrowthTimeline (some (dateOf 2024 1 1)) (dateOf 2024 1 11)).currentStage = Stage.seedling ↔
      10 < elapsedDays (dateOf 2024 1 1) (dateOf 2024 1 11) ∧ elapsedDays (dateOf 2024 1 1) (dateOf 2024 1 11) ≤ 30) ∧
    ((calculateGrowthTimeline (some (dateOf 2024 1 1)) (dateOf 2024 1 11)).currentStage = Stage.tillering ↔
      30 < elapsedDays (dateOf 2024 1 1) (dateOf 2024 1 11) ∧ elapsedDays (dateOf 2024 1 1) (dateOf 2024 1 11) ≤ 60) ∧
    ((calculateGrowthTimeline (some (dateOf 2024 1 1)) (dateOf 2024 1 11)).currentStage = Stage.stem_elongation ↔
      60 < elapsedDays (dateOf 2024 1 1) (dateOf 2024 1 11) ∧ elapsedDays (dateOf 2024 1 1) (dateOf 2024 1 11) ≤ 80) ∧
    ((calculateGrowthTimeline (some (dateOf 2024 1 1)) (dateOf 2024 1 11)).currentStage = Stage.heading ↔
      80 < elapsedDays (dateOf 2024 1 1) (dateOf 2024 1 11) ∧ elapsedDays (dateOf 2024 1 1) (dateOf 2024 1 11) ≤ 100) ∧
    ((calculateGrowthTimeline (some (dateOf 2024 1 1)) (dateOf 2024 1 11)).currentStage = Stage.maturity ↔
      100 < elapsedDays (dateOf 2024 1 1) (dateOf 2024 1 11) ∧ elapsedDays (dateOf 2024 1 1) (dateOf 2024 1 11) ≤ 120) ∧
    ((calculateGrowthTimeline (some (dateOf 2024 1 1)) (dateOf 2024 1 11)).currentStage = Stage.harvest_ready ↔
      120 < elapsedDays (dateOf 2024 1 1) (dateOf 2024 1 11)) :=
  ⟨by rw [elapsed_jan01_jan11]; decide,
    stage_of_elapsed_days (dateOf 2024 1 1) (dateOf 2024 1 11)
      (by rw [elapsed_jan01_jan11]; decide)⟩

/-- From the planting instant on, the stage progress lies in [0, 100]. -/
theorem stageProgress_in_range_of_nonneg (plantDate today : ℤ)
    (hd : 0 ≤ elapsedDays plantDate today) :
    0 ≤ (calculateGrowthTimeline (some plantDate) today).stageProgress ∧
      (calculateGrowthTimeline (some plantDate) today).stageProgress ≤ 100 := by
  rw [timeline_progress]
  refine ⟨le_min ?_ (by norm_num), min_le_right _ _⟩
  generalize elapsedDays plantDate today = d at hd ⊢
  have h0 : (0 : ℚ) ≤ d := by exact_mod_cast hd
  split_ifs with h1 h2 h3 h4 h5 h6
  · linarith
  · have : (10 : ℚ) < d := by
      have : 10 < d := by omega
      exact_mod_cast this
    linarith
  · have : (30 : ℚ) < d := by
      have : 30 < d := by omega
      exact_mod_cast this
    linarith
  · have : (60 : ℚ) < d := by
      have : 60 < d := by omega
      exact_mod_cast this
    linarith
  · have : (80 : ℚ) < d := by
      have : 80 < d := by omega
      exact_mod_cast this
    linarith
  · have : (100 : ℚ) < d := by
      have : 100 < d := by omega
      exact_mod_cast this
    linarith
  · norm_num

/-- C6 fails on the code one day before planting (planting 2024-01-02, now 2024-01-01):
the `seedling` branch is taken and the stage progress returned is -55. -/
theorem progress_negative_before_planting :
    (calculateGrowthTimeline (some (dateOf 2024 1 2)) (dateOf 2024 1 1)).currentStage
        = Stage.seedling ∧
      (calculateGrowthTimeline (some (dateOf 2024 1 2)) (dateOf 2024 1 1)).stageProgress
        = -55 ∧
      (calculateGrowthTimeline (some (dateOf 2024 1 2)) (dateOf 2024 1 1)).stageProgress
        < 0 := by
  rw [timeline_stage, timeline_progress, elapsed_jan02_jan01]
  norm_num

/-- From the planting instant on, the stage never moves backwards as time advances. -/
theorem stage_monotone_of_nonneg (plantDate today₁ today₂ : ℤ)
    (h0 : 0 ≤ elapsedDays plantDate today₁) (h : today₁ ≤ today₂) :
    (calculateGrowthTimeline (some plantDate) today₁).currentStage.rank ≤
      (calculateGrowthTimeline (some plantDate) today₂).currentStage.rank := by
  have hm := elapsedDays_mono plantDate today₁ today₂ h
  rw [timeline_stage, timeline_stage]
  generalize elapsedDays plantDate today₁ = d₁ at h0 hm ⊢
  generalize elapsedDays plantDate today₂ = d₂ at hm ⊢
  split_ifs <;> simp only [Stage.rank] <;> omega

/-- C7 fails on the code across the planting instant (planting 2024-01-02): the day
before, the stage returned is seedling; on the planting day it is germination, an
earlier stage at a later time. -/
theorem stage_regresses_at_planting :
    dateOf 2024 1 1 ≤ dateOf 2024 1 2 ∧
    (calculateGrowthTimeline (some (dateOf 2024 1 2)) (dateOf 2024 1 1)).currentStage
        = Stage.seedling ∧
    (calculateGrowthTimeline (some (dateOf 2024 1 2)) (dateOf 2024 1 2)).currentStage
        = Stage.germination ∧
    (calculateGrowthTimeline (some (dateOf 2024 1 2)) (dateOf 2024 1 2)).currentStage.rank <
      (calculateGrowthTimeline (some (dateOf 2024 1 2))
        (dateOf 2024 1 1)).currentStage.rank := by
  rw [timeline_stage, timeline_stage, elapsed_jan02_jan01, elapsed_self]
  refine ⟨by decide, ?_, ?_, ?_⟩ <;> simp [Stage.rank]

/-- The case distinction of `calculateGrowthTimeline` on the validity of the planting
date agrees with the statement-by-statement propagation of `NaN`. -/
theorem calculateGrowthTimeline_eq_NaN (plantDate : Option ℤ) (today : ℤ) :
    calculateGrowthTimelineNaN plantDate today =
      { currentStage := (calculateGrowthTimeline plantDate today).currentStage
        stageProgress := some (calculateGrowthTimeline plantDate today).stageProgress
        daysSincePlanting := (calculateGrowthTimeline plantDate today).daysSincePlanting
        daysToHarvest := (calculateGrowthTimeline plantDate today).daysToHarvest
        harvestDate := (calculateGrowthTimeline plantDate today).harvestDate } := by
  cases plantDate with
  | none => simp [calculateGrowthTimelineNaN, calculateGrowthTimeline, leNum, geNum]
  | some p =>
    simp only [calculateGrowthTimelineNaN, calculateGrowthTimeline, leNum, geNum,
      Option.map_some', Bool.and_eq_true, decide_eq_true_eq]
    split_ifs <;> rfl

theorem msPerDay_eq : msPerDay = 86400000 := by decide

theorem elapsed_jan01_may15 : elapsedDays (dateOf 2024 1 1) (dateOf 2024 5 15) = 135 := by
  rw [elapsedDays_eq]
  decide

theorem elapsed_jan01_apr25 : elapsedDays (dateOf 2024 1 1) (dateOf 2024 4 25) = 115 := by
  rw [elapsedDays_eq]
  decide

/-- Once 110 whole days have elapsed, no day remains to the harvest date. -/
theorem daysToHarvest_zero_of_ge_110 (plantDate today : ℤ)
    (hd : 110 ≤ elapsedDays plantDate today) :
    (calculateGrowthTimeline (some plantDate) today).daysToHarvest = some 0 := by
  rw [(timeline_harvest plantDate today).2]
  rw [elapsedDays_eq, msPerDay_eq] at hd
  rw [msPerDay_eq]
  congr 1
  omega

/-- C11. For every planting date and now with more than 120 elapsed whole days,
`calculateGrowthTimeline` returns stage harvest_ready, stage progress exactly 100 and
daysToHarvest 0. -/
theorem harvest_ready_after_120 (plantDate today : ℤ)
    (hd : 120 < elapsedDays plantDate today) :
    (calculateGrowthTimeline (some plantDate) today).currentStage = Stage.harvest_ready ∧
    (calculateGrowthTimeline (some plantDate) today).stageProgress = 100 ∧
    (calculateGrowthTimeline (some plantDate) today).daysToHarvest = some 0 := by
  refine ⟨?_, ?_, daysToHarvest_zero_of_ge_110 _ _ (by omega)⟩
  · rw [timeline_stage]
    split_ifs <;> first | rfl | omega
  · rw [timeline_progress]
    split_ifs <;> first | omega | norm_num

/-- Instance of C11 for planting on 2024-01-01 and now 2024-05-15, 135 days later. -/
theorem harvest_ready_after_120_witness :
    120 < elapsedDays (dateOf 2024 1 1) (dateOf 2024 5 15) ∧
    (calculateGrowthTimeline (some (dateOf 2024 1 1)) (dateOf 2024 5 15)).currentStage
      = Stage.harvest_ready ∧
    (calculateGrowthTimeline (some (dateOf 2024 1 1)) (dateOf 2024 5 15)).stageProgress = 100 ∧
    (calculateGrowthTimeline (some (dateOf 2024 1 1)) (dateOf 2024 5 15)).daysToHarvest
      = some 0 :=
  ⟨by rw [elapsed_jan01_may15]; decide,
    harvest_ready_after_120 (dateOf 2024 1 1) (dateOf 2024 5 15)
      (by rw [elapsed_jan01_may15]; decide)⟩

/-- C12, as stated, fails: for an invalid planting date (here with the clock at
2024-01-01) the code raises nothing and returns a timeline record, with stage
harvest_ready, progress 100 and `NaN` day counts. -/
theorem invalid_date_returns_timeline :
    calculateGrowthTimeline none (dateOf 2024 1 1) =
      { currentStage := Stage.harvest_ready, stageProgress := 100,
        daysSincePlanting := none, daysToHarvest := none, harvestDate := none } ∧
    calculateGrowthTimelineNaN none (dateOf 2024 1 1) =
      { currentStage := Stage.harvest_ready, stageProgress := some 100,
        daysSincePlanting := none, daysToHarvest := none, harvestDate := none } := by
  constructor
  · simp [calculateGrowthTimeline]
  · simp [calculateGrowthTimelineNaN, leNum, geNum]

/-- C12, amended. For every invalid or unparseable planting date and every now,
`calculateGrowthTimeline` does not fail: it returns the timeline record with stage
harvest_ready, stage progress 100, `NaN` as days since planting and as days to harvest,
and an invalid harvest date. -/
theorem invalid_date_timeline (today : ℤ) :
    calculateGrowthTimeline none today =
      { currentStage := Stage.harvest_ready, stageProgress := 100,
        daysSincePlanting := none, daysToHarvest := none, harvestDate := none } ∧
    calculateGrowthTimelineNaN none today =
      { currentStage := Stage.harvest_ready, stageProgress := some 100,
        daysSincePlanting := none, daysToHarvest := none, harvestDate := none } := by
  constructor
  · simp [calculateGrowthTimeline]
  · simp [calculateGrowthTimelineNaN, leNum, geNum]

/-- C20. With 110 ≤ d < 120 elapsed whole days daysToHarvest is 0 while the stage is
maturity and not harvest_ready; and whenever the stage returned is harvest_ready,
daysToHarvest is 0. -/
theorem offset_and_boundary (plantDate today : ℤ) :
    (110 ≤ elapsedDays plantDate today → elapsedDays plantDate today < 120 →
      (calculateGrowthTimeline (some plantDate) today).daysToHarvest = some 0 ∧
      (calculateGrowthTimeline (some plantDate) today).currentStage = Stage.maturity ∧
      (calculateGrowthTimeline (some plantDate) today).currentStage ≠ Stage.harvest_ready) ∧
    ((calculateGrowthTimeline (some plantDate) today).currentStage = Stage.harvest_ready →
      (calculateGrowthTimeline (some plantDate) today).daysToHarvest = some 0) := by
  constructor
  · intro h1 h2
    have hs : (calculateGrowthTimeline (some plantDate) today).currentStage
        = Stage.maturity := by
      rw [timeline_stage]
      split_ifs <;> first | rfl | omega
    exact ⟨daysToHarvest_zero_of_ge_110 _ _ h1, hs, by rw [hs]; decide⟩
  · intro hs
    apply daysToHarvest_zero_of_ge_110
    rw [timeline_stage] at hs
    split_ifs at hs
    omega

/-- Instance of C20 for planting on 2024-01-01 and now 2024-04-25, 115 days later. -/
theorem offset_and_boundary_witness :
    110 ≤ elapsedDays (dateOf 2024 1 1) (dateOf 2024 4 25) ∧
    elapsedDays (dateOf 2024 1 1) (dateOf 2024 4 25) < 120 ∧
    (calculateGrowthTimeline (some (dateOf 2024 1 1)) (dateOf 2024 4 25)).daysToHarvest
      = some 0 ∧
    (calculateGrowthTimeline (some (dateOf 2024 1 1)) (dateOf 2024 4 25)).currentStage
      = Stage.maturity :=
  have h1 : 110 ≤ elapsedDays (dateOf 2024 1 1) (dateOf 2024 4 25) := by
    rw [elapsed_jan01_apr25]; decide
  have h2 : elapsedDays (dateOf 2024 1 1) (dateOf 2024 4 25) < 120 := by
    rw [elapsed_jan01_apr25]; decide
  ⟨h1, h2, ((offset_and_boundary (dateOf 2024 1 1) (dateOf 2024 4 25)).1 h1 h2).1,
    ((offset_and_boundary (dateOf 2024 1 1) (dateOf 2024 4 25)).1 h1 h2).2.1⟩

/-! ## Scoring engine: further settled claims -/

theorem mathRound_sub_le (x : ℚ) : |(mathRound x : ℚ) - x| ≤ 1 / 2 := by
  unfold mathRound
  have h1 := Int.floor_le (x + 1 / 2)
  have h2 := Int.lt_floor_add_one (x + 1 / 2)
  rw [abs_le]
  constructor <;> linarith

theorem round2_sub_le (y : ℚ) : |(mathRound (y * 100) : ℚ) / 100 - y| ≤ 1 / 200 := by
  have h := mathRound_sub_le (y * 100)
  rw [abs_le] at h ⊢
  constructor <;> linarith [h.1, h.2]

theorem mathRound_mono {x y : ℚ} (h : x ≤ y) : mathRound x ≤ mathRound y := by
  unfold mathRound
  exact Int.floor_mono (by linarith)

/-- C13, as stated, fails: for the ideal-conditions record on 2 hectares with random
factor 1.0 the totalYield field is 24.07 while the predictedYield field times the land
area is 12.03 × 2 = 24.06. -/
theorem totalYield_not_rounded_product :
    (0 : ℚ) < (idealRecord 2).landArea ∧
    (calculateYieldPrediction (idealRecord 2) 1.0).totalYield = 24.07 ∧
    (calculateYieldPrediction (idealRecord 2) 1.0).predictedYield * (idealRecord 2).landArea
      = 24.06 ∧
    (calculateYieldPrediction (idealRecord 2) 1.0).totalYield ≠
      (calculateYieldPrediction (idealRecord 2) 1.0).predictedYield
        * (idealRecord 2).landArea := by
  have ha : (idealRecord 2).landArea = 2 := rfl
  have ht : (calculateYieldPrediction (idealRecord 2) 1.0).totalYield = 24.07 := by
    simp only [calculateYieldPrediction, baseYield_idealRecord, ha]
    rw [mathRound_eq (12.03475 * 1.0 * 2 * 100) 2407 (by norm_num) (by norm_num)]
    norm_num
  have hp : (calculateYieldPrediction (idealRecord 2) 1.0).predictedYield
      * (idealRecord 2).landArea = 24.06 := by
    simp only [calculateYieldPrediction, baseYield_idealRecord, ha]
    rw [mathRound_eq (12.03475 * 1.0 * 100) 1203 (by norm_num) (by norm_num)]
    norm_num
  refine ⟨by rw [ha]; norm_num, ht, hp, ?_⟩
  rw [ht, hp]
  norm_num

/-- C13, amended. For every conditions record with positive land area and every random
factor, the totalYield field is the predicted yield before rounding multiplied by the
land area, rounded to two decimals; it differs from the predictedYield field times the
land area by at most (area + 1) / 200. -/
theorem totalYield_of_unrounded (cropData : CropData) (randomFactor : ℚ)
    (_ha : 0 < cropData.landArea) :
    (calculateYieldPrediction cropData randomFactor).totalYield =
      (mathRound (baseYield cropData * randomFactor * cropData.landArea * 100) : ℚ) / 100 ∧
    |(calculateYieldPrediction cropData randomFactor).totalYield -
        (calculateYieldPrediction cropData randomFactor).predictedYield * cropData.landArea|
      ≤ (cropData.landArea + 1) / 200 := by
  refine ⟨rfl, ?_⟩
  simp only [calculateYieldPrediction]
  set P := baseYield cropData * randomFactor with hP
  have h1 := round2_sub_le (P * cropData.landArea)
  have h2 := round2_sub_le P
  rw [abs_le] at h1 h2 ⊢
  have e1 : (mathRound (P * 100) : ℚ) / 100 * cropData.landArea - P * cropData.landArea
      = ((mathRound (P * 100) : ℚ) / 100 - P) * cropData.landArea := by ring
  have h3 : -(1 / 200) * cropData.landArea
      ≤ ((mathRound (P * 100) : ℚ) / 100 - P) * cropData.landArea :=
    mul_le_mul_of_nonneg_right h2.1 _ha.le
  have h4 : ((mathRound (P * 100) : ℚ) / 100 - P) * cropData.landArea
      ≤ 1 / 200 * cropData.landArea :=
    mul_le_mul_of_nonneg_right h2.2 _ha.le
  constructor <;> linarith [h1.1, h1.2]

/-- Instance of the amended C13 for the ideal-conditions record on 2 hectares. -/
theorem totalYield_of_unrounded_witness :
    (0 : ℚ) < (idealRecord 2).landArea ∧
    (calculateYieldPrediction (idealRecord 2) 1.0).totalYield =
      (mathRound (baseYield (idealRecord 2) * 1.0 * (idealRecord 2).landArea * 100) : ℚ)
        / 100 ∧
    |(calculateYieldPrediction (idealRecord 2) 1.0).totalYield -
        (calculateYieldPrediction (idealRecord 2) 1.0).predictedYield
          * (idealRecord 2).landArea|
      ≤ ((idealRecord 2).landArea + 1) / 200 :=
  have ha : (0 : ℚ) < (idealRecord 2).landArea := by
    show (0 : ℚ) < 2
    norm_num
  ⟨ha, totalYield_of_unrounded (idealRecord 2) 1.0 ha⟩

theorem lookupOr_eq_tableValue (table : List (String × ℚ)) (key : String) (fallback : ℚ)
    (ht : ∀ p ∈ table, 0 < p.2) : lookupOr table key fallback = tableValue table key fallback := by
  unfold lookupOr tableValue
  induction table with
  | nil => simp [List.lookup]
  | cons hd tl ih =>
    obtain ⟨k, v⟩ := hd
    have hv : 0 < v := ht (k, v) (List.mem_cons_self _ _)
    have htl : ∀ p ∈ tl, 0 < p.2 := fun p hp => ht p (List.mem_cons_of_mem _ hp)
    by_cases hk : key = k
    · subst hk
      simp [List.lookup, hv.ne.symm]
    · have hk2 : (key == k) = false := by simpa using hk
      simpa [List.lookup, hk2] using ih htl

theorem soil_values_pos : ∀ p ∈ soil_base_yields, 0 < p.2 := by
  intro p hp
  simp only [soil_base_yields, List.mem_cons, List.mem_singleton, List.mem_nil_iff,
    or_false] at hp
  rcases hp with h | h | h | h | h <;> subst h <;> norm_num

theorem terrain_values_pos : ∀ p ∈ terrain_adjustments, 0 < p.2 := by
  intro p hp
  simp only [terrain_adjustments, List.mem_cons, List.mem_singleton, List.mem_nil_iff,
    or_false] at hp
  rcases hp with h | h | h | h | h <;> subst h <;> norm_num

theorem irrigation_values_pos : ∀ p ∈ irrigation_multipliers, 0 < p.2 := by
  intro p hp
  simp only [irrigation_multipliers, List.mem_cons, List.mem_singleton, List.mem_nil_iff,
    or_false] at hp
  rcases hp with h | h | h | h | h <;> subst h <;> norm_num

theorem fertilizer_values_pos : ∀ p ∈ fertilizer_effects, 0 < p.2 := by
  intro p hp
  simp only [fertilizer_effects, List.mem_cons, List.mem_singleton, List.mem_nil_iff,
    or_false] at hp
  rcases hp with h | h | h | h | h | h <;> subst h <;> norm_num

theorem seed_values_pos : ∀ p ∈ seed_bonuses, 0 < p.2 := by
  intro p hp
  simp only [seed_bonuses, List.mem_cons, List.mem_singleton, List.mem_nil_iff,
    or_false] at hp
  rcases hp with h | h <;> subst h <;> norm_num

theorem previous_crop_values_pos : ∀ p ∈ previous_crop_effects, 0 < p.2 := by
  intro p hp
  simp only [previous_crop_effects, List.mem_cons, List.mem_singleton, List.mem_nil_iff,
    or_false] at hp
  rcases hp with h | h | h | h | h | h <;> subst h <;> norm_num

/-- On the tables of `appData` the fallback of `||` is taken only for unlisted keys. -/
theorem baseYield_mul_eq_yieldFormula (cropData : CropData) (randomFactor : ℚ) :
    baseYield cropData * randomFactor = yieldFormula cropData randomFactor := by
  simp only [baseYield, yieldFormula,
    lookupOr_eq_tableValue _ _ _ soil_values_pos,
    lookupOr_eq_tableValue _ _ _ terrain_values_pos,
    lookupOr_eq_tableValue _ _ _ irrigation_values_pos,
    lookupOr_eq_tableValue _ _ _ fertilizer_values_pos,
    lookupOr_eq_tableValue _ _ _ seed_values_pos,
    lookupOr_eq_tableValue _ _ _ previous_crop_values_pos]

theorem baseYield_eq_bonus (cropData : CropData) :
    baseYield cropData =
      lookupOr soil_base_yields cropData.soilType 3.0
        * lookupOr terrain_adjustments cropData.terrainType 1.0
        * lookupOr irrigation_multipliers cropData.irrigationMethod 1.0
        * lookupOr fertilizer_effects cropData.fertilizerType 1.0
        * lookupOr seed_bonuses cropData.seedType 1.0
        * lookupOr previous_crop_effects cropData.previousCrop 1.0
        * (1 + fertilizerBonus cropData.fertilizerQuantity) := rfl

theorem fertilizerBonus_mono {q₁ q₂ : ℚ} (h : q₁ ≤ q₂) :
    fertilizerBonus q₁ ≤ fertilizerBonus q₂ := by
  unfold fertilizerBonus
  apply min_le_min _ le_rfl
  have : q₁ / 135 ≤ q₂ / 135 := div_le_div_of_nonneg_right h (by norm_num)
  exact mul_le_mul_of_nonneg_right this (by norm_num)

theorem fertilizerBonus_eq_cap_iff (q : ℚ) : fertilizerBonus q = 0.25 ↔ 225 ≤ q := by
  unfold fertilizerBonus
  rw [min_eq_right_iff]
  constructor
  · intro h
    norm_num at h
    linarith
  · intro h
    norm_num
    linarith

theorem baseYield_mono (cropData : CropData) {q₁ q₂ : ℚ} (h : q₁ ≤ q₂) :
    baseYield { cropData with fertilizerQuantity := q₁ } ≤
      baseYield { cropData with fertilizerQuantity := q₂ } := by
  rw [baseYield_eq_bonus, baseYield_eq_bonus]
  have hb := fertilizerBonus_mono h
  have h1 := soil_pos cropData.soilType
  have h2 := terrain_pos cropData.terrainType
  have h3 := irrigation_pos cropData.irrigationMethod
  have h4 := fertilizer_pos cropData.fertilizerType
  have h5 := seed_pos cropData.seedType
  have h6 := previous_crop_pos cropData.previousCrop
  apply mul_le_mul_of_nonneg_left (by linarith)
  positivity

theorem calculateConfidence_eq_formula (cropData : CropData) :
    calculateConfidence cropData = confidenceFormula cropData := by
  unfold calculateConfidence confidenceFormula
  simp only []
  split_ifs <;> norm_num

/-- C17. `calculateConfidence` returns min(max(85 + a + b + c + d, 60), 95) with a = +5
for Drip, -10 for Rain-fed, else 0; b = +3 for Hybrid, else 0; c = -8 for fertilizer
None, +2 for NPK, else 0; d = +3 for Loam, -5 for Sandy, else 0; the value reported in
the prediction is the same for every random factor, and two records that agree on
irrigation, seed, fertilizer type and soil get the same confidence whatever their
terrain, previous crop, fertilizer quantity and land area. -/
theorem confidence_formula (cropData : CropData) :
    calculateConfidence cropData = confidenceFormula cropData ∧
    (∀ randomFactor : ℚ,
      (calculateYieldPrediction cropData randomFactor).confidenceLevel =
        confidenceFormula cropData) ∧
    (∀ other : CropData,
      other.irrigationMethod = cropData.irrigationMethod →
      other.seedType = cropData.seedType →
      other.fertilizerType = cropData.fertilizerType →
      other.soilType = cropData.soilType →
      calculateConfidence other = calculateConfidence cropData) := by
  refine ⟨calculateConfidence_eq_formula cropData,
    fun _ => calculateConfidence_eq_formula cropData, ?_⟩
  intro other h1 h2 h3 h4
  simp only [calculateConfidence, h1, h2, h3, h4]

theorem push_if_eq {α : Type} (c : Prop) [Decidable c] (l : List α) (x : α) :
    (if c then l ++ [x] else l) = l ++ (if c then [x] else []) := by
  split_ifs <;> simp

/-- The roadmap is the catalog part followed by the tier part, cut to five entries. -/
theorem roadmap_eq (cropData : CropData) (predictedYield idealYield : ℚ) :
    generateOptimizationRoadmap cropData predictedYield idealYield =
      (catalogPart cropData ++ tierPart predictedYield idealYield).take 5 := by
  unfold generateOptimizationRoadmap catalogPart tierPart
  simp only [push_if_eq, List.nil_append]
  by_cases h40 : efficiencyBelow predictedYield idealYield 40 = true
  · simp only [h40, if_true]
  · by_cases h70 : efficiencyBelow predictedYield idealYield 70 = true
    · simp only [h40, h70, Bool.false_eq_true, if_true, if_false]
    · simp only [h40, h70, Bool.false_eq_true, if_false, List.append_nil]

theorem catalogPart_length (cropData : CropData) : (catalogPart cropData).length ≤ 5 := by
  unfold catalogPart
  simp only [List.length_append]
  split_ifs <;> simp

theorem tierPart_mem (predictedYield idealYield : ℚ) (x : Recommendation)
    (h : x ∈ tierPart predictedYield idealYield) :
    x = extensionServicesMessage ∨ x = precisionAgricultureMessage := by
  unfold tierPart at h
  split_ifs at h <;> simp at h
  · exact Or.inl h
  · exact Or.inr h

theorem roadmap_eq_append (cropData : CropData) (predictedYield idealYield : ℚ) :
    generateOptimizationRoadmap cropData predictedYield idealYield =
      catalogPart cropData ++
        (tierPart predictedYield idealYield).take (5 - (catalogPart cropData).length) := by
  rw [roadmap_eq, List.take_append_eq_append_take,
    List.take_of_length_le (catalogPart_length cropData)]

theorem mem_roadmap_iff (cropData : CropData) (predictedYield idealYield : ℚ)
    (x : Recommendation) (h1 : x ≠ extensionServicesMessage)
    (h2 : x ≠ precisionAgricultureMessage) :
    x ∈ generateOptimizationRoadmap cropData predictedYield idealYield ↔
      x ∈ catalogPart cropData := by
  rw [roadmap_eq_append, List.mem_append]
  constructor
  · rintro (h | h)
    · exact h
    · rcases tierPart_mem _ _ x (List.mem_of_mem_take h) with e | e
      · exact absurd e h1
      · exact absurd e h2
  · exact Or.inl

theorem mem_ite_singleton {α : Type} (c : Prop) [Decidable c] (x y : α) :
    y ∈ (if c then [x] else []) ↔ c ∧ y = x := by
  split_ifs with h <;> simp [h]

theorem mem_catalogPart (cropData : CropData) (y : Recommendation) :
    y ∈ catalogPart cropData ↔
      (cropData.soilType ≠ "Loam" ∧ y = recommendationOf soil_improvement) ∨
      (cropData.irrigationMethod ≠ "Drip" ∧ y = recommendationOf irrigation_upgrade) ∨
      (cropData.seedType ≠ "Hybrid" ∧ y = recommendationOf hybrid_seeds) ∨
      ((cropData.fertilizerType ≠ "NPK" ∨ cropData.fertilizerQuantity < 120) ∧
        y = recommendationOf fertilizer_optimization) ∨
      (cropData.previousCrop = "Rice" ∧ y = recommendationOf crop_rotation) := by
  unfold catalogPart
  simp only [List.mem_append, mem_ite_singleton, or_assoc]

/-! ## Historical log: settled claims -/

theorem displayHistoricalData_records (page : Page) (state : LogState)
    (records : List HistoricalRecord) :
    (displayHistoricalData page state records).historical_records
      = state.historical_records := by
  unfold displayHistoricalData
  split_ifs <;> rfl

/-- C14. The historical log is append-only under the three log operations:
`addToHistoricalData` keeps every existing record unchanged and in place and adds exactly
one record at the end, `handleSearch` and `handleSort` leave the log unchanged, so the log
before any of the three is a prefix of the log after it. -/
theorem log_append_only (lib : Builtins) (page : Page) (state : LogState)
    (predictionData : PredictionData) :
    (addToHistoricalData page state predictionData).historical_records
      = state.historical_records ++ [newRecord state predictionData] ∧
    (addToHistoricalData page state predictionData).historical_records.length
      = state.historical_records.length + 1 ∧
    (∀ i : ℕ, i < state.historical_records.length →
      (addToHistoricalData page state predictionData).historical_records[i]?
        = state.historical_records[i]?) ∧
    (handleSearch lib page state).historical_records = state.historical_records ∧
    (handleSort lib page state).historical_records = state.historical_records ∧
    (∃ added, (addToHistoricalData page state predictionData).historical_records
      = state.historical_records ++ added) ∧
    (∃ added, (handleSearch lib page state).historical_records
      = state.historical_records ++ added) ∧
    (∃ added, (handleSort lib page state).historical_records
      = state.historical_records ++ added) := by
  have hadd : (addToHistoricalData page state predictionData).historical_records
      = state.historical_records ++ [newRecord state predictionData] := by
    unfold addToHistoricalData
    rw [displayHistoricalData_records]
  have hsearch : (handleSearch lib page state).historical_records
      = state.historical_records := by
    unfold handleSearch
    cases page.searchInput with
    | none => rfl
    | some value =>
      simp only []
      split_ifs <;> rw [displayHistoricalData_records]
  have hsort : (handleSort lib page state).historical_records
      = state.historical_records := by
    unfold handleSort
    cases page.sortSelect with
    | none => rfl
    | some sortBy => exact displayHistoricalData_records _ _ _
  refine ⟨hadd, ?_, ?_, hsearch, hsort, ⟨_, hadd⟩, ⟨[], ?_⟩, ⟨[], ?_⟩⟩
  · rw [hadd]
    simp
  · intro i hi
    rw [hadd, List.getElem?_append_left hi]
  · rw [hsearch, List.append_nil]
  · rw [hsort, List.append_nil]

/-! ## Scoring engine: confidence floor, yield above the maximum, tier message -/

theorem calculateConfidence_eq_clamp (cropData : CropData) :
    calculateConfidence cropData = min (max (confidenceBeforeClamp cropData) 60) 95 := rfl

theorem confidenceBeforeClamp_bounds (cropData : CropData) :
    62 ≤ confidenceBeforeClamp cropData ∧ confidenceBeforeClamp cropData ≤ 98 := by
  unfold confidenceBeforeClamp
  simp only []
  split_ifs <;> constructor <;> norm_num

theorem confidenceBeforeClamp_eq_62_iff (cropData : CropData) :
    confidenceBeforeClamp cropData = 62 ↔
      cropData.irrigationMethod = "Rain-fed" ∧ cropData.seedType ≠ "Hybrid" ∧
      cropData.fertilizerType = "None" ∧ cropData.soilType = "Sandy" := by
  unfold confidenceBeforeClamp
  simp only []
  split_ifs <;> simp_all

/-- C21. The lower clamp of `calculateConfidence` is unreachable: the unclamped sum is at
least 62, so the value returned is min(sum, 95) and lies in [62, 95]; the minimum 62 is
attained exactly for Rain-fed irrigation, non-Hybrid seed, fertilizer None and Sandy
soil; Drip, Hybrid, NPK and Loam give the sum 98, returned as 95. -/
theorem confidence_lower_clamp_unreachable (cropData : CropData) :
    62 ≤ confidenceBeforeClamp cropData ∧
    calculateConfidence cropData = min (confidenceBeforeClamp cropData) 95 ∧
    62 ≤ calculateConfidence cropData ∧ calculateConfidence cropData ≤ 95 ∧
    (calculateConfidence cropData = 62 ↔
      cropData.irrigationMethod = "Rain-fed" ∧ cropData.seedType ≠ "Hybrid" ∧
      cropData.fertilizerType = "None" ∧ cropData.soilType = "Sandy") ∧
    (cropData.irrigationMethod = "Drip" → cropData.seedType = "Hybrid" →
      cropData.fertilizerType = "NPK" → cropData.soilType = "Loam" →
      confidenceBeforeClamp cropData = 98 ∧ calculateConfidence cropData = 95) ∧
    confidenceBeforeClamp (idealRecord 1) = 98 ∧ calculateConfidence (idealRecord 1) = 95 := by
  have hb := confidenceBeforeClamp_bounds cropData
  have hc : calculateConfidence cropData = min (confidenceBeforeClamp cropData) 95 := by
    rw [calculateConfidence_eq_clamp, max_eq_left (by omega)]
  have h98 : ∀ c : CropData, c.irrigationMethod = "Drip" → c.seedType = "Hybrid" →
      c.fertilizerType = "NPK" → c.soilType = "Loam" →
      confidenceBeforeClamp c = 98 ∧ calculateConfidence c = 95 := by
    intro c h1 h2 h3 h4
    have e : confidenceBeforeClamp c = 98 := by
      simp [confidenceBeforeClamp, h1, h2, h3, h4]
    refine ⟨e, ?_⟩
    rw [calculateConfidence_eq_clamp, e]
    decide
  refine ⟨hb.1, hc, ?_, ?_, ?_, h98 cropData, h98 (idealRecord 1) rfl rfl rfl rfl⟩
  · rw [hc]
    exact le_min hb.1 (by norm_num)
  · rw [hc]
    exact min_le_right _ _
  · rw [hc, ← confidenceBeforeClamp_eq_62_iff]
    constructor
    · intro h
      rcases min_choice (confidenceBeforeClamp cropData) 95 with h' | h'
      · rw [h'] at h
        exact h
      · rw [h'] at h
        omega
    · intro h
      rw [h]
      decide

/-- C22. For the ideal-conditions record and every random factor in [0.95, 1.05] the
predictedYield returned is strictly greater than the theoretical maximum 10.465 and the
yieldGap returned is strictly negative; the unperturbed yield is
10.465 × 1.15 = 12.03475. -/
theorem ideal_yield_exceeds_maximum (landArea randomFactor : ℚ) (hlo : 0.95 ≤ randomFactor)
    (_hhi : randomFactor ≤ 1.05) :
    baseYield (idealRecord landArea) = theoretical_max_yield * 1.15 ∧
    theoretical_max_yield * 1.15 = 12.03475 ∧
    theoretical_max_yield <
      (calculateYieldPrediction (idealRecord landArea) randomFactor).predictedYield ∧
    (calculateYieldPrediction (idealRecord landArea) randomFactor).yieldGap < 0 := by
  have hv : theoretical_max_yield * 1.15 = 12.03475 := by norm_num [theoretical_max_yield]
  refine ⟨by rw [baseYield_idealRecord, hv], hv, ?_, ?_⟩
  · simp only [calculateYieldPrediction, baseYield_idealRecord]
    have h1 : (1143 : ℚ) ≤ 12.03475 * randomFactor * 100 := by
      norm_num at hlo ⊢
      linarith
    have h2 : mathRound (1143 : ℚ) ≤ mathRound (12.03475 * randomFactor * 100) :=
      mathRound_mono h1
    have h3 : mathRound ((1143 : ℤ) : ℚ) = 1143 := mathRound_intCast 1143
    have h4 : (1143 : ℤ) ≤ mathRound (12.03475 * randomFactor * 100) := by
      rw [← h3]
      exact_mod_cast h2
    have h5 : (1143 : ℚ) ≤ (mathRound (12.03475 * randomFactor * 100) : ℚ) := by
      exact_mod_cast h4
    norm_num [theoretical_max_yield]
    linarith
  · simp only [calculateYieldPrediction, baseYield_idealRecord]
    have h1 : (theoretical_max_yield - 12.03475 * randomFactor) * 100 ≤ ((-96 : ℤ) : ℚ) := by
      norm_num [theoretical_max_yield] at hlo ⊢
      linarith
    have h2 := mathRound_le_of_le _ _ h1
    have h3 : (mathRound ((theoretical_max_yield - 12.03475 * randomFactor) * 100) : ℚ)
        ≤ -96 := by exact_mod_cast h2
    linarith

theorem catalogPart_of_allRulesHold (cropData : CropData) (h : allRulesHold cropData) :
    catalogPart cropData = catalogEntries := by
  obtain ⟨h1, h2, h3, h4, h5⟩ := h
  simp only [catalogPart, if_pos h1, if_pos h2, if_pos h3, if_pos h4, if_pos h5]
  rfl

theorem catalogPart_length_lt (cropData : CropData) (h : ¬ allRulesHold cropData) :
    (catalogPart cropData).length < 5 := by
  unfold allRulesHold at h
  unfold catalogPart
  simp only [List.length_append]
  split_ifs <;> simp_all

theorem tierPart_length (predictedYield idealYield : ℚ) :
    (tierPart predictedYield idealYield).length ≤ 1 := by
  unfold tierPart
  split_ifs <;> simp

/-- The roadmap by cases: the five catalog entries when all rules hold, otherwise the
catalog part followed by the whole tier part. -/
theorem roadmap_cases (cropData : CropData) (predictedYield idealYield : ℚ) :
    (allRulesHold cropData →
      generateOptimizationRoadmap cropData predictedYield idealYield = catalogEntries) ∧
    (¬ allRulesHold cropData →
      generateOptimizationRoadmap cropData predictedYield idealYield =
        catalogPart cropData ++ tierPart predictedYield idealYield) := by
  constructor
  · intro h
    rw [roadmap_eq_append, catalogPart_of_allRulesHold _ h]
    simp [catalogEntries]
  · intro h
    rw [roadmap_eq_append]
    congr 1
    apply List.take_of_length_le
    have h1 := catalogPart_length_lt cropData h
    have h2 := tierPart_length predictedYield idealYield
    omega

theorem efficiencyBelow_40_70 (predictedYield idealYield : ℚ)
    (h : efficiencyBelow predictedYield idealYield 40 = true) :
    efficiencyBelow predictedYield idealYield 70 = true := by
  unfold efficiencyBelow at h ⊢
  split_ifs at h ⊢ with h0
  · exact h
  · simp only [decide_eq_true_eq] at h ⊢
    linarith

theorem efficiencyBelow_iff (predictedYield idealYield bound : ℚ) (h : idealYield ≠ 0) :
    efficiencyBelow predictedYield idealYield bound = true ↔
      predictedYield / idealYield * 100 < bound := by
  simp [efficiencyBelow, h]

theorem extension_mem_tierPart (predictedYield idealYield : ℚ) :
    extensionServicesMessage ∈ tierPart predictedYield idealYield ↔
      efficiencyBelow predictedYield idealYield 40 = true := by
  unfold tierPart
  split_ifs with h1 h2
  · simp [h1]
  · simp [h1, (by decide : extensionServicesMessage ≠ precisionAgricultureMessage)]
  · simp [h1]

theorem precision_mem_tierPart (predictedYield idealYield : ℚ) :
    precisionAgricultureMessage ∈ tierPart predictedYield idealYield ↔
      efficiencyBelow predictedYield idealYield 70 = true ∧
        efficiencyBelow predictedYield idealYield 40 = false := by
  unfold tierPart
  split_ifs with h1 h2
  · simp [h1, (by decide : precisionAgricultureMessage ≠ extensionServicesMessage)]
  · simp [h1, h2]
  · simp [h1, h2]

theorem extension_not_mem_catalogPart (cropData : CropData) :
    extensionServicesMessage ∉ catalogPart cropData := by
  rw [mem_catalogPart]
  simp [(by decide : extensionServicesMessage ≠ recommendationOf soil_improvement),
    (by decide : extensionServicesMessage ≠ recommendationOf irrigation_upgrade),
    (by decide : extensionServicesMessage ≠ recommendationOf hybrid_seeds),
    (by decide : extensionServicesMessage ≠ recommendationOf fertilizer_optimization),
    (by decide : extensionServicesMessage ≠ recommendationOf crop_rotation)]

theorem precision_not_mem_catalogPart (cropData : CropData) :
    precisionAgricultureMessage ∉ catalogPart cropData := by
  rw [mem_catalogPart]
  simp [(by decide : precisionAgricultureMessage ≠ recommendationOf soil_improvement),
    (by decide : precisionAgricultureMessage ≠ recommendationOf irrigation_upgrade),
    (by decide : precisionAgricultureMessage ≠ recommendationOf hybrid_seeds),
    (by decide : precisionAgricultureMessage ≠ recommendationOf fertilizer_optimization),
    (by decide : precisionAgricultureMessage ≠ recommendationOf crop_rotation)]

theorem extension_mem_roadmap (cropData : CropData) (predictedYield idealYield : ℚ) :
    extensionServicesMessage ∈ generateOptimizationRoadmap cropData predictedYield idealYield ↔
      efficiencyBelow predictedYield idealYield 40 = true ∧ ¬ allRulesHold cropData := by
  by_cases h : allRulesHold cropData
  · rw [(roadmap_cases cropData predictedYield idealYield).1 h]
    simp only [h, not_true_eq_false, and_false, iff_false]
    decide
  · rw [(roadmap_cases cropData predictedYield idealYield).2 h, List.mem_append,
      extension_mem_tierPart]
    simp [h, extension_not_mem_catalogPart]

theorem precision_mem_roadmap (cropData : CropData) (predictedYield idealYield : ℚ) :
    precisionAgricultureMessage ∈
        generateOptimizationRoadmap cropData predictedYield idealYield ↔
      (efficiencyBelow predictedYield idealYield 70 = true ∧
        efficiencyBelow predictedYield idealYield 40 = false) ∧
      ¬ allRulesHold cropData := by
  by_cases h : allRulesHold cropData
  · rw [(roadmap_cases cropData predictedYield idealYield).1 h]
    simp only [h, not_true_eq_false, and_false, iff_false]
    decide
  · rw [(roadmap_cases cropData predictedYield idealYield).2 h, List.mem_append,
      precision_mem_tierPart]
    simp [h, precision_not_mem_catalogPart]

/-- C23. The list returned by `generateOptimizationRoadmap` contains an efficiency-tier
message iff predictedYield / idealYield × 100 < 70 and at least one of the five
condition rules is false; it is the extension-services message iff that ratio is below
40 and the precision-agriculture message otherwise; when present it is the last entry;
and when all five rules hold the result is exactly the five catalog entries, whatever
the efficiency. The ratio test is `efficiencyBelow`, which for a non-zero ideal yield is
the plain inequality. -/
theorem tier_message_survives_iff (cropData : CropData) (predictedYield idealYield : ℚ) :
    ((extensionServicesMessage ∈
          generateOptimizationRoadmap cropData predictedYield idealYield ∨
        precisionAgricultureMessage ∈
          generateOptimizationRoadmap cropData predictedYield idealYield) ↔
      efficiencyBelow predictedYield idealYield 70 = true ∧ ¬ allRulesHold cropData) ∧
    (extensionServicesMessage ∈
        generateOptimizationRoadmap cropData predictedYield idealYield ↔
      efficiencyBelow predictedYield idealYield 40 = true ∧ ¬ allRulesHold cropData) ∧
    (precisionAgricultureMessage ∈
        generateOptimizationRoadmap cropData predictedYield idealYield ↔
      (efficiencyBelow predictedYield idealYield 70 = true ∧
        efficiencyBelow predictedYield idealYield 40 = false) ∧
      ¬ allRulesHold cropData) ∧
    (extensionServicesMessage ∈
        generateOptimizationRoadmap cropData predictedYield idealYield →
      (generateOptimizationRoadmap cropData predictedYield idealYield).getLast?
        = some extensionServicesMessage) ∧
    (precisionAgricultureMessage ∈
        generateOptimizationRoadmap cropData predictedYield idealYield →
      (generateOptimizationRoadmap cropData predictedYield idealYield).getLast?
        = some precisionAgricultureMessage) ∧
    (allRulesHold cropData →
      generateOptimizationRoadmap cropData predictedYield idealYield = catalogEntries) ∧
    (idealYield ≠ 0 → ∀ bound : ℚ,
      (efficiencyBelow predictedYield idealYield bound = true ↔
        predictedYield / idealYield * 100 < bound)) := by
  refine ⟨?_, extension_mem_roadmap _ _ _, precision_mem_roadmap _ _ _, ?_, ?_,
    (roadmap_cases _ _ _).1, fun h b => efficiencyBelow_iff _ _ b h⟩
  · rw [extension_mem_roadmap, precision_mem_roadmap]
    constructor
    · rintro (⟨h1, h2⟩ | ⟨⟨h1, _⟩, h2⟩)
      · exact ⟨efficiencyBelow_40_70 _ _ h1, h2⟩
      · exact ⟨h1, h2⟩
    · rintro ⟨h1, h2⟩
      by_cases h40 : efficiencyBelow predictedYield idealYield 40 = true
      · exact Or.inl ⟨h40, h2⟩
      · exact Or.inr ⟨⟨h1, by simpa using h40⟩, h2⟩
  · intro hm
    obtain ⟨h40, hr⟩ := (extension_mem_roadmap _ _ _).1 hm
    rw [(roadmap_cases cropData predictedYield idealYield).2 hr]
    have : tierPart predictedYield idealYield = [extensionServicesMessage] := by
      simp [tierPart, h40]
    rw [this, List.getLast?_concat]
  · intro hm
    obtain ⟨⟨h70, h40⟩, hr⟩ := (precision_mem_roadmap _ _ _).1 hm
    rw [(roadmap_cases cropData predictedYield idealYield).2 hr]
    have : tierPart predictedYield idealYield = [precisionAgricultureMessage] := by
      simp [tierPart, h40, h70]
    rw [this, List.getLast?_concat]

/-- Instance of C22 on one hectare with random factor 1.0. -/
theorem ideal_yield_exceeds_maximum_witness :
    (0.95 : ℚ) ≤ 1.0 ∧ (1.0 : ℚ) ≤ 1.05 ∧
    theoretical_max_yield <
      (calculateYieldPrediction (idealRecord 1) 1.0).predictedYield ∧
    (calculateYieldPrediction (idealRecord 1) 1.0).yieldGap < 0 :=
  ⟨by norm_num, by norm_num,
    (ideal_yield_exceeds_maximum 1 1.0 (by norm_num) (by norm_num)).2.2⟩

theorem unlistedRecord_not_allRulesHold : ¬ allRulesHold unlistedRecord := by
  intro h
  exact absurd h.2.2.2.2 (by decide)

theorem efficiencyBelow_unlisted : efficiencyBelow 3 theoretical_max_yield 40 = true := by
  rw [efficiencyBelow_iff _ _ _ (by norm_num [theoretical_max_yield])]
  norm_num [theoretical_max_yield]

/-- Instance of C23: for the record with unlisted values, predicted yield 3 and the ideal
yield 10.465 (efficiency below 40, crop-rotation rule false) the extension-services
message is in the list and is its last entry. -/
theorem tier_message_survives_iff_witness :
    extensionServicesMessage ∈
        generateOptimizationRoadmap unlistedRecord 3 theoretical_max_yield ∧
    (generateOptimizationRoadmap unlistedRecord 3 theoretical_max_yield).getLast?
      = some extensionServicesMessage :=
  have hm : extensionServicesMessage ∈
      generateOptimizationRoadmap unlistedRecord 3 theoretical_max_yield :=
    (tier_message_survives_iff unlistedRecord 3 theoretical_max_yield).2.1.2
      ⟨efficiencyBelow_unlisted, unlistedRecord_not_allRulesHold⟩
  ⟨hm, (tier_message_survives_iff unlistedRecord 3 theoretical_max_yield).2.2.2.1 hm⟩

/-! ## Scoring engine with `NaN`: agreement with the numeric reading -/

theorem lookupOrNaN_eq (table : List (String × ℚ)) (key : String) (fallback : ℚ)
    (h : key ∉ objectPrototypeKeys) :
    lookupOrNaN table key fallback = some (lookupOr table key fallback) := by
  unfold lookupOrNaN lookupOr
  cases table.lookup key with
  | none => simp [h]
  | some v =>
    simp only []
    split_ifs <;> rfl

theorem lookupOrNaN_inherited (table : List (String × ℚ)) (key : String) (fallback : ℚ)
    (h1 : table.lookup key = none) (h2 : key ∈ objectPrototypeKeys) :
    lookupOrNaN table key fallback = none := by
  simp [lookupOrNaN, h1, h2]

theorem tableProductNaN_eq (cropData : CropData) (h : noInheritedKey cropData) :
    tableProductNaN cropData.toNaN =
      some (lookupOr soil_base_yields cropData.soilType 3.0
        * lookupOr terrain_adjustments cropData.terrainType 1.0
        * lookupOr irrigation_multipliers cropData.irrigationMethod 1.0
        * lookupOr fertilizer_effects cropData.fertilizerType 1.0
        * lookupOr seed_bonuses cropData.seedType 1.0
        * lookupOr previous_crop_effects cropData.previousCrop 1.0) := by
  obtain ⟨h1, h2, h3, h4, h5, h6⟩ := h
  simp only [tableProductNaN, CropData.toNaN, lookupOrNaN_eq _ _ _ h1, lookupOrNaN_eq _ _ _ h2,
    lookupOrNaN_eq _ _ _ h3, lookupOrNaN_eq _ _ _ h4, lookupOrNaN_eq _ _ _ h5,
    lookupOrNaN_eq _ _ _ h6, mulNaN]

theorem baseYieldNaN_eq (cropData : CropData) (h : noInheritedKey cropData) :
    baseYieldNaN cropData.toNaN = some (baseYield cropData) := by
  unfold baseYieldNaN
  rw [tableProductNaN_eq cropData h]
  simp only [CropData.toNaN, Option.map_some', mulNaN, baseYield]

theorem efficiencyBelowNaN_some (p i b : ℚ) :
    efficiencyBelowNaN (some p) i b = efficiencyBelow p i b := rfl

theorem ltNaN_some (q b : ℚ) : (ltNaN (some q) b = true) ↔ q < b := by
  simp [ltNaN]

theorem roadmapNaN_eq (cropData : CropData) (predictedYield idealYield : ℚ) :
    generateOptimizationRoadmapNaN cropData.toNaN (some predictedYield) idealYield =
      generateOptimizationRoadmap cropData predictedYield idealYield := by
  simp only [generateOptimizationRoadmapNaN, generateOptimizationRoadmap, CropData.toNaN,
    efficiencyBelowNaN_some, ltNaN_some]

theorem calculateConfidenceNaN_eq (cropData : CropData) :
    calculateConfidenceNaN cropData.toNaN = calculateConfidence cropData := rfl

theorem calculateYieldPredictionNaN_eq (cropData : CropData) (randomFactor : ℚ)
    (h : noInheritedKey cropData) :
    calculateYieldPredictionNaN cropData.toNaN randomFactor =
      (calculateYieldPrediction cropData randomFactor).toNaN := by
  unfold calculateYieldPredictionNaN
  rw [baseYieldNaN_eq cropData h]
  simp only [mulNaN, Option.map_some', roadmapNaN_eq, calculateConfidenceNaN_eq,
    calculateYieldPrediction, PredictionResult.toNaN]
  rfl


theorem mulNaN_none_left (b : Option ℚ) : mulNaN none b = none := rfl

theorem mulNaN_none_right (a : Option ℚ) : mulNaN a none = none := by
  cases a <;> rfl

theorem lookupOrNaN_some (table : List (String × ℚ)) (key : String) (fallback v : ℚ)
    (h : lookupOrNaN table key fallback = some v) : v = lookupOr table key fallback := by
  unfold lookupOrNaN at h
  unfold lookupOr
  cases hl : table.lookup key with
  | none =>
    rw [hl] at h
    simp only [] at h ⊢
    split_ifs at h
    exact (Option.some.inj h).symm
  | some w =>
    rw [hl] at h
    simp only [] at h ⊢
    split_ifs at h ⊢ <;> exact (Option.some.inj h).symm

/-- The yield fields are `NaN` as soon as the product of the table factors is. -/
theorem yield_NaN_of_tableProduct_none (cropData : CropDataNaN) (randomFactor : ℚ)
    (h : tableProductNaN cropData = none) :
    (calculateYieldPredictionNaN cropData randomFactor).predictedYield = none ∧
    (calculateYieldPredictionNaN cropData randomFactor).efficiency = none ∧
    (calculateYieldPredictionNaN cropData randomFactor).totalYield = none ∧
    (calculateYieldPredictionNaN cropData randomFactor).yieldGap = none := by
  simp [calculateYieldPredictionNaN, baseYieldNaN, h, mulNaN_none_left]

theorem tableProductNaN_of_soil_none (cropData : CropDataNaN)
    (h : lookupOrNaN soil_base_yields cropData.soilType 3.0 = none) :
    tableProductNaN cropData = none := by
  simp [tableProductNaN, h, mulNaN_none_left]

theorem tableProductNaN_of_terrain_none (cropData : CropDataNaN)
    (h : lookupOrNaN terrain_adjustments cropData.terrainType 1.0 = none) :
    tableProductNaN cropData = none := by
  simp [tableProductNaN, h, mulNaN_none_left, mulNaN_none_right]

/-- C1 fails on the code for the record with soil type "constructor", fertilizer quantity
0 and random factor 1.0: the lookup reaches the inherited property, `|| 3.0` is skipped
and the efficiency returned is `NaN`, which is no value in [0, 100]. -/
theorem efficiency_NaN_on_inherited_key :
    inheritedSoilRecord.toNaN.fertilizerQuantity = some 0 ∧
    (0.95 : ℚ) ≤ 1.0 ∧ (1.0 : ℚ) ≤ 1.05 ∧
    (calculateYieldPredictionNaN inheritedSoilRecord.toNaN 1.0).efficiency = none ∧
    ¬ ∃ e : ℚ, (calculateYieldPredictionNaN inheritedSoilRecord.toNaN 1.0).efficiency = some e ∧
      0 ≤ e ∧ e ≤ 100 := by
  have h : (calculateYieldPredictionNaN inheritedSoilRecord.toNaN 1.0).efficiency = none :=
    (yield_NaN_of_tableProduct_none _ _
      (tableProductNaN_of_soil_none _ (lookupOrNaN_inherited _ _ _ (by decide) (by decide)))).2.1
  refine ⟨rfl, by norm_num, by norm_num, h, ?_⟩
  rintro ⟨e, he, _⟩
  rw [h] at he
  cases he

/-- C4 fails on the code for a record whose six categorical values are all absent from
their tables, with soil type "toString", fertilizer quantity 0 and random factor 1.0: the
soil lookup does not contribute 3.0, it is `NaN`, and so is the predicted yield. -/
theorem default_skipped_on_inherited_key :
    soil_base_yields.lookup unknownInheritedRecord.soilType = none ∧
    terrain_adjustments.lookup unknownInheritedRecord.terrainType = none ∧
    irrigation_multipliers.lookup unknownInheritedRecord.irrigationMethod = none ∧
    fertilizer_effects.lookup unknownInheritedRecord.fertilizerType = none ∧
    seed_bonuses.lookup unknownInheritedRecord.seedType = none ∧
    previous_crop_effects.lookup unknownInheritedRecord.previousCrop = none ∧
    unknownInheritedRecord.fertilizerQuantity = 0 ∧
    lookupOrNaN soil_base_yields unknownInheritedRecord.soilType 3.0 = none ∧
    (calculateYieldPredictionNaN unknownInheritedRecord.toNaN 1.0).predictedYield = none ∧
    (calculateYieldPredictionNaN unknownInheritedRecord.toNaN 1.0).predictedYield
      ≠ some 3.0 := by
  have hl : lookupOrNaN soil_base_yields unknownInheritedRecord.soilType 3.0 = none :=
    lookupOrNaN_inherited _ _ _ (by decide) (by decide)
  have h : (calculateYieldPredictionNaN unknownInheritedRecord.toNaN 1.0).predictedYield
      = none :=
    (yield_NaN_of_tableProduct_none _ _ (tableProductNaN_of_soil_none _ hl)).1
  refine ⟨by decide, by decide, by decide, by decide, by decide, by decide, rfl, hl, h, ?_⟩
  rw [h]
  exact fun h' => by cases h'

/-- C15 fails on the code for the ideal-conditions record with terrain "valueOf", absent
from the terrain table: the formula with multiplier 1.0 gives 12.03, the code returns
`NaN`. -/
theorem predictedYield_NaN_on_inherited_key :
    terrain_adjustments.lookup inheritedTerrainRecord.terrainType = none ∧
    (calculateYieldPredictionNaN inheritedTerrainRecord.toNaN 1.0).predictedYield = none ∧
    (mathRound (yieldFormula inheritedTerrainRecord 1.0 * 100) : ℚ) / 100 = 12.03 := by
  refine ⟨by decide, ?_, ?_⟩
  · exact (yield_NaN_of_tableProduct_none _ _
      (tableProductNaN_of_terrain_none _
        (lookupOrNaN_inherited _ _ _ (by decide) (by decide)))).1
  · have hy : yieldFormula inheritedTerrainRecord 1.0 = 12.03475 := by
      simp [yieldFormula, tableValue, inheritedTerrainRecord, idealRecord, soil_base_yields,
        terrain_adjustments, irrigation_multipliers, fertilizer_effects, seed_bonuses,
        previous_crop_effects, List.lookup]
      norm_num
    rw [hy, mathRound_eq (12.03475 * 100) 1203 (by norm_num) (by norm_num)]
    norm_num

/-- On a record none of whose categorical values names an inherited property, with a
non-negative fertilizer quantity and a random factor in [0.95, 1.05], the efficiency is a
number in [0, 100]. -/
theorem efficiencyNaN_in_range (cropData : CropData) (randomFactor : ℚ)
    (hk : noInheritedKey cropData) (hq : 0 ≤ cropData.fertilizerQuantity)
    (hlo : 0.95 ≤ randomFactor) (hhi : randomFactor ≤ 1.05) :
    ∃ e : ℚ, (calculateYieldPredictionNaN cropData.toNaN randomFactor).efficiency = some e ∧
      0 ≤ e ∧ e ≤ 100 := by
  rw [calculateYieldPredictionNaN_eq cropData randomFactor hk]
  exact ⟨_, rfl, efficiency_in_range cropData randomFactor hq hlo hhi⟩

theorem tableProductNaN_pos (cropData : CropDataNaN) (t : ℚ)
    (h : tableProductNaN cropData = some t) : 0 < t := by
  unfold tableProductNaN at h
  cases h1 : lookupOrNaN soil_base_yields cropData.soilType 3.0 with
  | none => simp [h1, mulNaN] at h
  | some v1 =>
  cases h2 : lookupOrNaN terrain_adjustments cropData.terrainType 1.0 with
  | none => simp [h1, h2, mulNaN] at h
  | some v2 =>
  cases h3 : lookupOrNaN irrigation_multipliers cropData.irrigationMethod 1.0 with
  | none => simp [h1, h2, h3, mulNaN] at h
  | some v3 =>
  cases h4 : lookupOrNaN fertilizer_effects cropData.fertilizerType 1.0 with
  | none => simp [h1, h2, h3, h4, mulNaN] at h
  | some v4 =>
  cases h5 : lookupOrNaN seed_bonuses cropData.seedType 1.0 with
  | none => simp [h1, h2, h3, h4, h5, mulNaN] at h
  | some v5 =>
  cases h6 : lookupOrNaN previous_crop_effects cropData.previousCrop 1.0 with
  | none => simp [h1, h2, h3, h4, h5, h6, mulNaN] at h
  | some v6 =>
    simp only [h1, h2, h3, h4, h5, h6, mulNaN, Option.some.injEq] at h
    have p1 : 0 < v1 := lookupOrNaN_some _ _ _ _ h1 ▸ soil_pos _
    have p2 : 0 < v2 := lookupOrNaN_some _ _ _ _ h2 ▸ terrain_pos _
    have p3 : 0 < v3 := lookupOrNaN_some _ _ _ _ h3 ▸ irrigation_pos _
    have p4 : 0 < v4 := lookupOrNaN_some _ _ _ _ h4 ▸ fertilizer_pos _
    have p5 : 0 < v5 := lookupOrNaN_some _ _ _ _ h5 ▸ seed_pos _
    have p6 : 0 < v6 := lookupOrNaN_some _ _ _ _ h6 ▸ previous_crop_pos _
    rw [← h]
    positivity

theorem baseYieldNaN_bonus (cropData : CropDataNaN) (q : ℚ) :
    baseYieldNaN { cropData with fertilizerQuantity := some q } =
      (tableProductNaN cropData).map fun t => t * (1 + fertilizerBonus q) := by
  have ht : tableProductNaN { cropData with fertilizerQuantity := some q }
      = tableProductNaN cropData := rfl
  unfold baseYieldNaN
  rw [ht]
  cases tableProductNaN cropData with
  | none => rfl
  | some t => rfl

theorem predictedYieldNaN_bonus (cropData : CropDataNaN) (randomFactor q : ℚ) :
    (calculateYieldPredictionNaN { cropData with fertilizerQuantity := some q }
        randomFactor).predictedYield =
      (tableProductNaN cropData).map fun t =>
        (mathRound (t * (1 + fertilizerBonus q) * randomFactor * 100) : ℚ) / 100 := by
  unfold calculateYieldPredictionNaN
  simp only []
  rw [baseYieldNaN_bonus]
  cases tableProductNaN cropData with
  | none => rfl
  | some t => rfl

/-- C16. With the other fields and the random factor (in [0.95, 1.05]) held fixed, the
yield of `calculateYieldPrediction` is the product of the table factors times
1 + `fertilizerBonus` of the quantity; the predicted yield is non-decreasing in the
fertilizer quantity for quantity ≥ 0, the bonus lies in [0, 0.25], the bonus equals its
cap 0.25 exactly when quantity ≥ 225, and any two quantities ≥ 225 give the same
predicted yield. -/
theorem fertilizer_quantity_effect (cropData : CropDataNaN) (randomFactor : ℚ)
    (hlo : 0.95 ≤ randomFactor) (_hhi : randomFactor ≤ 1.05) :
    (∀ q : ℚ, baseYieldNaN { cropData with fertilizerQuantity := some q } =
      (tableProductNaN cropData).map fun t => t * (1 + fertilizerBonus q)) ∧
    (∀ q : ℚ,
      (calculateYieldPredictionNaN { cropData with fertilizerQuantity := some q }
          randomFactor).predictedYield =
        (tableProductNaN cropData).map fun t =>
          (mathRound (t * (1 + fertilizerBonus q) * randomFactor * 100) : ℚ) / 100) ∧
    (∀ q₁ q₂ y₁ y₂ : ℚ, 0 ≤ q₁ → q₁ ≤ q₂ →
      (calculateYieldPredictionNaN { cropData with fertilizerQuantity := some q₁ }
          randomFactor).predictedYield = some y₁ →
      (calculateYieldPredictionNaN { cropData with fertilizerQuantity := some q₂ }
          randomFactor).predictedYield = some y₂ →
      y₁ ≤ y₂) ∧
    (∀ q : ℚ, 0 ≤ q → 0 ≤ fertilizerBonus q ∧ fertilizerBonus q ≤ 0.25) ∧
    (∀ q : ℚ, 0 ≤ q → (fertilizerBonus q = 0.25 ↔ 225 ≤ q)) ∧
    (∀ q₁ q₂ : ℚ, 225 ≤ q₁ → 225 ≤ q₂ →
      (calculateYieldPredictionNaN { cropData with fertilizerQuantity := some q₁ }
          randomFactor).predictedYield =
        (calculateYieldPredictionNaN { cropData with fertilizerQuantity := some q₂ }
          randomFactor).predictedYield) := by
  have hr : (0 : ℚ) ≤ randomFactor := by
    have : (0 : ℚ) ≤ 0.95 := by norm_num
    linarith
  refine ⟨baseYieldNaN_bonus cropData, predictedYieldNaN_bonus cropData randomFactor, ?_, ?_,
    fun q _ => fertilizerBonus_eq_cap_iff q, ?_⟩
  · intro q₁ q₂ y₁ y₂ _ hq h1 h2
    rw [predictedYieldNaN_bonus] at h1 h2
    cases ht : tableProductNaN cropData with
    | none =>
      rw [ht] at h1
      cases h1
    | some t =>
      rw [ht] at h1 h2
      simp only [Option.map_some', Option.some.injEq] at h1 h2
      have hpos := tableProductNaN_pos cropData t ht
      have hb := fertilizerBonus_mono hq
      have hm : t * (1 + fertilizerBonus q₁) * randomFactor * 100
          ≤ t * (1 + fertilizerBonus q₂) * randomFactor * 100 := by
        have : t * (1 + fertilizerBonus q₁) ≤ t * (1 + fertilizerBonus q₂) :=
          mul_le_mul_of_nonneg_left (by linarith) hpos.le
        have := mul_le_mul_of_nonneg_right this hr
        linarith
      have hz := mathRound_mono hm
      have hq' : ((mathRound (t * (1 + fertilizerBonus q₁) * randomFactor * 100) : ℤ) : ℚ)
          ≤ (mathRound (t * (1 + fertilizerBonus q₂) * randomFactor * 100) : ℤ) := by
        exact_mod_cast hz
      rw [← h1, ← h2]
      linarith
  · intro q hq
    unfold fertilizerBonus
    refine ⟨le_min ?_ (by norm_num), min_le_right _ _⟩
    have : (0 : ℚ) ≤ q / 135 := div_nonneg hq (by norm_num)
    exact mul_nonneg this (by norm_num)
  · intro q₁ q₂ h1 h2
    rw [predictedYieldNaN_bonus, predictedYieldNaN_bonus,
      (fertilizerBonus_eq_cap_iff q₁).2 h1, (fertilizerBonus_eq_cap_iff q₂).2 h2]

theorem idealRecord_noInheritedKey (landArea : ℚ) : noInheritedKey (idealRecord landArea) :=
  ⟨(by decide : "Loam" ∉ objectPrototypeKeys), (by decide : "Flat" ∉ objectPrototypeKeys),
    (by decide : "Drip" ∉ objectPrototypeKeys), (by decide : "NPK" ∉ objectPrototypeKeys),
    (by decide : "Hybrid" ∉ objectPrototypeKeys),
    (by decide : "Vegetables" ∉ objectPrototypeKeys)⟩

/-- Instance of C16 on the ideal-conditions record with random factor 1.0: quantities
100 and 200 give 11.63 and 12.79, and the cap is reached at 225. -/
theorem fertilizer_quantity_effect_witness :
    (0.95 : ℚ) ≤ 1.0 ∧ (1.0 : ℚ) ≤ 1.05 ∧
    (calculateYieldPredictionNaN { (idealRecord 1).toNaN with fertilizerQuantity := some 100 }
        1.0).predictedYield = some 11.63 ∧
    (calculateYieldPredictionNaN { (idealRecord 1).toNaN with fertilizerQuantity := some 200 }
        1.0).predictedYield = some 12.79 ∧
    (11.63 : ℚ) ≤ 12.79 ∧ fertilizerBonus 225 = 0.25 := by
  have hc := fertilizer_quantity_effect (idealRecord 1).toNaN 1.0 (by norm_num) (by norm_num)
  have ht : tableProductNaN (idealRecord 1).toNaN = some 10.465 := by
    rw [tableProductNaN_eq _ (idealRecord_noInheritedKey 1)]
    simp [idealRecord, lookupOr, soil_base_yields, terrain_adjustments,
      irrigation_multipliers, fertilizer_effects, seed_bonuses, previous_crop_effects,
      List.lookup]
    norm_num
  have h1 : (calculateYieldPredictionNaN
      { (idealRecord 1).toNaN with fertilizerQuantity := some 100 } 1.0).predictedYield
      = some 11.63 := by
    rw [hc.2.1 100, ht]
    simp only [Option.map_some', fertilizerBonus]
    rw [min_eq_left (by norm_num),
      mathRound_eq _ 1163 (by norm_num) (by norm_num)]
    norm_num
  have h2 : (calculateYieldPredictionNaN
      { (idealRecord 1).toNaN with fertilizerQuantity := some 200 } 1.0).predictedYield
      = some 12.79 := by
    rw [hc.2.1 200, ht]
    simp only [Option.map_some', fertilizerBonus]
    rw [min_eq_left (by norm_num),
      mathRound_eq _ 1279 (by norm_num) (by norm_num)]
    norm_num
  exact ⟨by norm_num, by norm_num, h1, h2,
    hc.2.2.1 100 200 11.63 12.79 (by norm_num) (by norm_num) h1 h2,
    ((hc.2.2.2.2.1 225 (by norm_num)).2 le_rfl)⟩

theorem ltNaN_iff_getD (q : Option ℚ) : ltNaN q 120 = true ↔ q.getD 120 < 120 := by
  cases q with
  | none => simp [ltNaN]
  | some v => simp [ltNaN]

theorem efficiencyBelowNaN_getD (p : Option ℚ) (i b : ℚ) (hb : b ≤ 100) :
    efficiencyBelowNaN p i b = efficiencyBelow (p.getD (if i = 0 then 0 else i)) i b := by
  cases p with
  | some v => rfl
  | none =>
    by_cases hi : i = 0
    · simp [efficiencyBelowNaN, efficiencyBelow, hi]
    · simp only [efficiencyBelowNaN, efficiencyBelow, hi, if_false, Option.getD_none,
        div_self hi, one_mul]
      symm
      simpa using hb

/-- The roadmap on a record with `NaN` fields is the roadmap on its branch record. -/
theorem roadmapNaN_eq_branch (cropData : CropDataNaN) (predictedYield : Option ℚ)
    (idealYield : ℚ) :
    generateOptimizationRoadmapNaN cropData predictedYield idealYield =
      generateOptimizationRoadmap cropData.branchRecord
        (predictedYield.getD (if idealYield = 0 then 0 else idealYield)) idealYield := by
  simp only [generateOptimizationRoadmapNaN, generateOptimizationRoadmap,
    CropDataNaN.branchRecord, ltNaN_iff_getD,
    efficiencyBelowNaN_getD _ _ 40 (by norm_num), efficiencyBelowNaN_getD _ _ 70 (by norm_num)]

/-- C18, as stated, fails: for an NPK record whose quantity field was left empty
(`NaN`), the fertilizer recommendation is not in the list although
not (NPK and quantity ≥ 120) holds, `NaN >= 120` being false. -/
theorem fertilizer_rule_fails_on_NaN_quantity :
    recommendationOf fertilizer_optimization ∉
        generateOptimizationRoadmapNaN npkUnreadQuantity none theoretical_max_yield ∧
    recommendationOf fertilizer_optimization ∉
        (calculateYieldPredictionNaN npkUnreadQuantity 1.0).recommendations ∧
    ¬ (npkUnreadQuantity.fertilizerType = "NPK" ∧
        geNaN npkUnreadQuantity.fertilizerQuantity 120 = true) ∧
    ¬ (recommendationOf fertilizer_optimization ∈
          generateOptimizationRoadmapNaN npkUnreadQuantity none theoretical_max_yield ↔
        ¬ (npkUnreadQuantity.fertilizerType = "NPK" ∧
          geNaN npkUnreadQuantity.fertilizerQuantity 120 = true)) := by
  have h1 : recommendationOf fertilizer_optimization ∉
      generateOptimizationRoadmapNaN npkUnreadQuantity none theoretical_max_yield := by
    rw [roadmapNaN_eq_branch, mem_roadmap_iff _ _ _ _ (by decide) (by decide), mem_catalogPart]
    simp [CropDataNaN.branchRecord, npkUnreadQuantity,
      (by decide : recommendationOf fertilizer_optimization ≠ recommendationOf soil_improvement),
      (by decide : recommendationOf fertilizer_optimization ≠ recommendationOf irrigation_upgrade),
      (by decide : recommendationOf fertilizer_optimization ≠ recommendationOf hybrid_seeds),
      (by decide : recommendationOf fertilizer_optimization ≠ recommendationOf crop_rotation)]
  have h2 : ¬ (npkUnreadQuantity.fertilizerType = "NPK" ∧
      geNaN npkUnreadQuantity.fertilizerQuantity 120 = true) := by
    simp [npkUnreadQuantity, geNaN]
  have h3 : (calculateYieldPredictionNaN npkUnreadQuantity 1.0).recommendations =
      generateOptimizationRoadmapNaN npkUnreadQuantity none theoretical_max_yield := by
    have hb : baseYieldNaN npkUnreadQuantity = none := by
      simp [baseYieldNaN, npkUnreadQuantity, mulNaN_none_right]
    simp [calculateYieldPredictionNaN, hb, mulNaN_none_left]
  refine ⟨h1, by rw [h3]; exact h1, h2, ?_⟩
  intro h
  exact h1 (h.2 h2)

/-- C18, amended. Each of the five catalog recommendations is in the list returned by
`generateOptimizationRoadmap` exactly when its rule holds, truncation notwithstanding:
soil improvement iff soil is not Loam, irrigation upgrade iff irrigation is not Drip,
hybrid seeds iff seed is not Hybrid, fertilizer optimization iff fertilizer is not NPK
or quantity < 120 (for a quantity that is a number: iff not (NPK and quantity ≥ 120);
for a `NaN` quantity: iff fertilizer is not NPK), crop rotation iff previous crop is
Rice; and each entry carries the text, impact, increase, timeline and investment of its
catalog entry. -/
theorem catalog_entry_iff_code_rule (cropData : CropDataNaN) (predictedYield : Option ℚ) (idealYield : ℚ) :
    (recommendationOf soil_improvement ∈
        generateOptimizationRoadmapNaN cropData predictedYield idealYield ↔
      cropData.soilType ≠ "Loam") ∧
    (recommendationOf irrigation_upgrade ∈
        generateOptimizationRoadmapNaN cropData predictedYield idealYield ↔
      cropData.irrigationMethod ≠ "Drip") ∧
    (recommendationOf hybrid_seeds ∈
        generateOptimizationRoadmapNaN cropData predictedYield idealYield ↔
      cropData.seedType ≠ "Hybrid") ∧
    (recommendationOf fertilizer_optimization ∈
        generateOptimizationRoadmapNaN cropData predictedYield idealYield ↔
      (cropData.fertilizerType ≠ "NPK" ∨ ltNaN cropData.fertilizerQuantity 120 = true)) ∧
    (∀ q : ℚ, cropData.fertilizerQuantity = some q →
      (recommendationOf fertilizer_optimization ∈
          generateOptimizationRoadmapNaN cropData predictedYield idealYield ↔
        ¬ (cropData.fertilizerType = "NPK" ∧ 120 ≤ q))) ∧
    (cropData.fertilizerQuantity = none →
      (recommendationOf fertilizer_optimization ∈
          generateOptimizationRoadmapNaN cropData predictedYield idealYield ↔
        cropData.fertilizerType ≠ "NPK")) ∧
    (recommendationOf crop_rotation ∈
        generateOptimizationRoadmapNaN cropData predictedYield idealYield ↔
      cropData.previousCrop = "Rice") ∧
    recommendationOf soil_improvement =
      { text := "Switch to loam soil or improve soil composition", impact := "High",
        increase := "15-25%", timeline := "6-12 months", investment := "Medium to High" } ∧
    recommendationOf irrigation_upgrade =
      { text := "Upgrade to drip irrigation system", impact := "High",
        increase := "10-20%", timeline := "2-4 months", investment := "High" } ∧
    recommendationOf hybrid_seeds =
      { text := "Use hybrid seed varieties", impact := "Medium",
        increase := "20-25%", timeline := "Next planting season", investment := "Low" } ∧
    recommendationOf fertilizer_optimization =
      { text := "Optimize fertilizer type and quantity", impact := "Medium",
        increase := "10-15%", timeline := "Current season", investment := "Low to Medium" } ∧
    recommendationOf crop_rotation =
      { text := "Implement proper crop rotation", impact := "Low",
        increase := "5-10%", timeline := "Next 2-3 seasons", investment := "Low" } := by
  have hf : recommendationOf fertilizer_optimization ∈
        generateOptimizationRoadmapNaN cropData predictedYield idealYield ↔
      (cropData.fertilizerType ≠ "NPK" ∨ ltNaN cropData.fertilizerQuantity 120 = true) := by
    rw [roadmapNaN_eq_branch, mem_roadmap_iff _ _ _ _ (by decide) (by decide), mem_catalogPart,
      ltNaN_iff_getD]
    simp [CropDataNaN.branchRecord,
      (by decide : recommendationOf fertilizer_optimization ≠ recommendationOf soil_improvement),
      (by decide : recommendationOf fertilizer_optimization ≠ recommendationOf irrigation_upgrade),
      (by decide : recommendationOf fertilizer_optimization ≠ recommendationOf hybrid_seeds),
      (by decide : recommendationOf fertilizer_optimization ≠ recommendationOf crop_rotation)]
  refine ⟨?_, ?_, ?_, hf, ?_, ?_, ?_, rfl, rfl, rfl, rfl, rfl⟩
  · rw [roadmapNaN_eq_branch, mem_roadmap_iff _ _ _ _ (by decide) (by decide), mem_catalogPart]
    simp [CropDataNaN.branchRecord,
      (by decide : recommendationOf soil_improvement ≠ recommendationOf irrigation_upgrade),
      (by decide : recommendationOf soil_improvement ≠ recommendationOf hybrid_seeds),
      (by decide : recommendationOf soil_improvement ≠ recommendationOf fertilizer_optimization),
      (by decide : recommendationOf soil_improvement ≠ recommendationOf crop_rotation)]
  · rw [roadmapNaN_eq_branch, mem_roadmap_iff _ _ _ _ (by decide) (by decide), mem_catalogPart]
    simp [CropDataNaN.branchRecord,
      (by decide : recommendationOf irrigation_upgrade ≠ recommendationOf soil_improvement),
      (by decide : recommendationOf irrigation_upgrade ≠ recommendationOf hybrid_seeds),
      (by decide : recommendationOf irrigation_upgrade ≠ recommendationOf fertilizer_optimization),
      (by decide : recommendationOf irrigation_upgrade ≠ recommendationOf crop_rotation)]
  · rw [roadmapNaN_eq_branch, mem_roadmap_iff _ _ _ _ (by decide) (by decide), mem_catalogPart]
    simp [CropDataNaN.branchRecord,
      (by decide : recommendationOf hybrid_seeds ≠ recommendationOf soil_improvement),
      (by decide : recommendationOf hybrid_seeds ≠ recommendationOf irrigation_upgrade),
      (by decide : recommendationOf hybrid_seeds ≠ recommendationOf fertilizer_optimization),
      (by decide : recommendationOf hybrid_seeds ≠ recommendationOf crop_rotation)]
  · intro q hq
    rw [hf, hq, not_and_or, not_le]
    simp [ltNaN]
  · intro hq
    rw [hf, hq]
    simp [ltNaN]
  · rw [roadmapNaN_eq_branch, mem_roadmap_iff _ _ _ _ (by decide) (by decide), mem_catalogPart]
    simp [CropDataNaN.branchRecord,
      (by decide : recommendationOf crop_rotation ≠ recommendationOf soil_improvement),
      (by decide : recommendationOf crop_rotation ≠ recommendationOf irrigation_upgrade),
      (by decide : recommendationOf crop_rotation ≠ recommendationOf hybrid_seeds),
      (by decide : recommendationOf crop_rotation ≠ recommendationOf fertilizer_optimization)]

/-! ## Growth timeline in a time zone -/

/-- Stage, progress and elapsed days do not depend on the time zone. -/
theorem timelineIn_stage (zone : TimeZone) (plantDate today : ℤ) :
    (calculateGrowthTimelineIn zone (some plantDate) today).currentStage =
        (calculateGrowthTimeline (some plantDate) today).currentStage ∧
    (calculateGrowthTimelineIn zone (some plantDate) today).stageProgress =
        (calculateGrowthTimeline (some plantDate) today).stageProgress ∧
    (calculateGrowthTimelineIn zone (some plantDate) today).daysSincePlanting =
        (calculateGrowthTimeline (some plantDate) today).daysSincePlanting := by
  simp only [calculateGrowthTimelineIn, calculateGrowthTimeline, and_self]

/-- Harvest date and days to harvest in a time zone. -/
theorem timelineIn_harvest (zone : TimeZone) (plantDate today : ℤ) :
    (calculateGrowthTimelineIn zone (some plantDate) today).harvestDate =
        harvestTimeValue zone plantDate ∧
    (calculateGrowthTimelineIn zone (some plantDate) today).daysToHarvest =
        (harvestTimeValue zone plantDate).map fun h => max 0 ((h - today) / msPerDay) := by
  simp only [calculateGrowthTimelineIn, mathFloor_div_msPerDay, and_self]

/-- When the offset in force 110 local days after planting is the offset at planting and
the date is in range, `setDate` adds exactly 110 × 86 400 000 ms. -/
theorem harvestTimeValue_of_same_offset (zone : TimeZone) (plantDate : ℤ)
    (hzone : zone.offsetAtLocal (plantDate + zone.offsetAtUTC plantDate + 110 * msPerDay)
      = zone.offsetAtUTC plantDate)
    (hrange : |plantDate + 110 * msPerDay| ≤ maxTimeValue) :
    harvestTimeValue zone plantDate = some (plantDate + 110 * msPerDay) := by
  unfold harvestTimeValue
  simp only [hzone]
  have e : plantDate + zone.offsetAtUTC plantDate + 110 * msPerDay - zone.offsetAtUTC plantDate
      = plantDate + 110 * msPerDay := by ring
  rw [e, timeClip, if_pos hrange]

/-- In a fixed-offset zone and in range the zoned timeline is `calculateGrowthTimeline`. -/
theorem calculateGrowthTimelineIn_fixedOffset (offset plantDate today : ℤ)
    (hrange : |plantDate + 110 * msPerDay| ≤ maxTimeValue) :
    calculateGrowthTimelineIn (fixedOffset offset) (some plantDate) today =
      calculateGrowthTimeline (some plantDate) today := by
  have h := harvestTimeValue_of_same_offset (fixedOffset offset) plantDate rfl hrange
  simp only [calculateGrowthTimelineIn, calculateGrowthTimeline, h, Option.map_some']

theorem harvest_newYork_jan01 :
    harvestTimeValue newYork2024 (dateOf 2024 1 1) = some (dateOf 2024 4 20 - msPerHour) := by
  decide

/-- C10, as stated, fails: in New York, planting on 2024-01-01 with now equal to the
planting date, the harvest date is one hour short of 110 days after planting
(19 April, 23:00 UTC) and daysToHarvest is 109. -/
theorem timeline_at_planting_newYork :
    (calculateGrowthTimelineIn newYork2024 (some (dateOf 2024 1 1))
        (dateOf 2024 1 1)).daysToHarvest = some 109 ∧
    (calculateGrowthTimelineIn newYork2024 (some (dateOf 2024 1 1))
        (dateOf 2024 1 1)).harvestDate = some (dateOf 2024 4 20 - msPerHour) ∧
    (calculateGrowthTimelineIn newYork2024 (some (dateOf 2024 1 1))
        (dateOf 2024 1 1)).harvestDate ≠ some (dateOf 2024 1 1 + 110 * msPerDay) ∧
    (calculateGrowthTimelineIn newYork2024 (some (dateOf 2024 1 1))
        (dateOf 2024 1 1)).daysToHarvest ≠ some 110 := by
  rw [(timelineIn_harvest _ _ _).1, (timelineIn_harvest _ _ _).2, harvest_newYork_jan01]
  decide

/-- C19, as stated, fails: in New York, planting on 2024-01-01, ten whole days later
daysToHarvest is 99, not max(0, 110 - 10), and the harvest date is not planting plus 110
days; and for planting at the largest valid time value the harvest date is invalid and
daysToHarvest is `NaN`. -/
theorem harvest_offset_fails :
    (calculateGrowthTimelineIn newYork2024 (some (dateOf 2024 1 1))
        (dateOf 2024 1 1 + 10 * msPerDay)).daysToHarvest = some 99 ∧
    (calculateGrowthTimelineIn newYork2024 (some (dateOf 2024 1 1))
        (dateOf 2024 1 1 + 10 * msPerDay)).daysToHarvest ≠ some (max 0 (110 - 10)) ∧
    (calculateGrowthTimelineIn newYork2024 (some (dateOf 2024 1 1))
        (dateOf 2024 1 1 + 10 * msPerDay)).harvestDate
      ≠ some (dateOf 2024 1 1 + 110 * msPerDay) ∧
    (calculateGrowthTimelineIn (fixedOffset 0) (some maxTimeValue) maxTimeValue).harvestDate
      = none ∧
    (calculateGrowthTimelineIn (fixedOffset 0) (some maxTimeValue) maxTimeValue).daysToHarvest
      = none := by
  rw [(timelineIn_harvest _ _ _).1, (timelineIn_harvest _ _ _).2, harvest_newYork_jan01,
    (timelineIn_harvest _ _ _).1, (timelineIn_harvest _ _ _).2]
  have h : harvestTimeValue (fixedOffset 0) maxTimeValue = none := by decide
  rw [h]
  decide

/-- C10, amended. When now equals the planting date, `calculateGrowthTimeline` returns
stage germination and stage progress 0; when moreover the offset of local time from UTC
110 local days after planting is the offset at planting, and that date is within the
range of `Date`, the harvest date is exactly 110 days after planting and daysToHarvest
is 110. -/
theorem timeline_at_planting_same_offset (zone : TimeZone) (plantDate : ℤ) :
    (calculateGrowthTimelineIn zone (some plantDate) plantDate).currentStage
      = Stage.germination ∧
    (calculateGrowthTimelineIn zone (some plantDate) plantDate).stageProgress = 0 ∧
    (zone.offsetAtLocal (plantDate + zone.offsetAtUTC plantDate + 110 * msPerDay)
        = zone.offsetAtUTC plantDate →
      |plantDate + 110 * msPerDay| ≤ maxTimeValue →
      (calculateGrowthTimelineIn zone (some plantDate) plantDate).harvestDate
        = some (plantDate + 110 * msPerDay) ∧
      (calculateGrowthTimelineIn zone (some plantDate) plantDate).daysToHarvest
        = some 110) := by
  have hd : (plantDate + 110 * msPerDay - plantDate) / msPerDay = 110 := by
    have : plantDate + 110 * msPerDay - plantDate = 110 * msPerDay := by ring
    rw [this]
    exact Int.mul_ediv_cancel _ (by decide)
  refine ⟨?_, ?_, ?_⟩
  · rw [(timelineIn_stage _ _ _).1, timeline_stage, elapsed_self]
    simp
  · rw [(timelineIn_stage _ _ _).2.1, timeline_progress, elapsed_self]
    norm_num
  · intro hzone hrange
    have hh := harvestTimeValue_of_same_offset zone plantDate hzone hrange
    constructor
    · rw [(timelineIn_harvest _ _ _).1, hh]
    · rw [(timelineIn_harvest _ _ _).2, hh, Option.map_some', hd]
      rfl

/-- Instance of the amended C10 in Indian Standard Time for planting on 2024-01-01: the
harvest date is 2024-04-20. -/
theorem timeline_at_planting_same_offset_witness :
    indiaStandardTime.offsetAtLocal
        (dateOf 2024 1 1 + indiaStandardTime.offsetAtUTC (dateOf 2024 1 1) + 110 * msPerDay)
      = indiaStandardTime.offsetAtUTC (dateOf 2024 1 1) ∧
    |dateOf 2024 1 1 + 110 * msPerDay| ≤ maxTimeValue ∧
    dateOf 2024 1 1 + 110 * msPerDay = dateOf 2024 4 20 ∧
    (calculateGrowthTimelineIn indiaStandardTime (some (dateOf 2024 1 1))
        (dateOf 2024 1 1)).harvestDate = some (dateOf 2024 1 1 + 110 * msPerDay) ∧
    (calculateGrowthTimelineIn indiaStandardTime (some (dateOf 2024 1 1))
        (dateOf 2024 1 1)).daysToHarvest = some 110 :=
  ⟨rfl, by decide, by decide,
    (timeline_at_planting_same_offset indiaStandardTime (dateOf 2024 1 1)).2.2 rfl (by decide)⟩

/-- C19, amended. For every valid planting date and now, daysToHarvest is
max(0, floor((harvestDate - now) / one day)) whenever the harvest date is valid, and
daysToHarvest, when it is a number, is never negative; in a time zone whose offset from
UTC 110 local days after planting is the offset at planting, and with that date within
the range of `Date`, the harvest date is the planting date plus 110 days, and when now
is exactly d ≥ 0 whole days after planting daysToHarvest is max(0, 110 - d). -/
theorem harvest_offset_same_offset (zone : TimeZone) (plantDate today : ℤ) :
    (∀ h : ℤ, (calculateGrowthTimelineIn zone (some plantDate) today).harvestDate = some h →
      (calculateGrowthTimelineIn zone (some plantDate) today).daysToHarvest
        = some (max 0 (mathFloor (((h - today : ℤ) : ℚ) / (msPerDay : ℚ))))) ∧
    (∀ n : ℤ, (calculateGrowthTimelineIn zone (some plantDate) today).daysToHarvest = some n →
      0 ≤ n) ∧
    (zone.offsetAtLocal (plantDate + zone.offsetAtUTC plantDate + 110 * msPerDay)
        = zone.offsetAtUTC plantDate →
      |plantDate + 110 * msPerDay| ≤ maxTimeValue →
      (calculateGrowthTimelineIn zone (some plantDate) today).harvestDate
        = some (plantDate + 110 * msPerDay) ∧
      (∀ d : ℤ, 0 ≤ d →
        (calculateGrowthTimelineIn zone (some plantDate)
            (plantDate + d * msPerDay)).daysToHarvest
          = some (max 0 (110 - d)))) := by
  refine ⟨?_, ?_, ?_⟩
  · intro h hh
    rw [(timelineIn_harvest _ _ _).1] at hh
    rw [(timelineIn_harvest _ _ _).2, hh, Option.map_some', mathFloor_div_msPerDay]
  · intro n hn
    rw [(timelineIn_harvest _ _ _).2] at hn
    cases hv : harvestTimeValue zone plantDate with
    | none =>
      rw [hv] at hn
      cases hn
    | some h =>
      rw [hv, Option.map_some', Option.some.injEq] at hn
      rw [← hn]
      exact le_max_left _ _
  · intro hzone hrange
    have hh := harvestTimeValue_of_same_offset zone plantDate hzone hrange
    constructor
    · rw [(timelineIn_harvest _ _ _).1, hh]
    · intro d _
      rw [(timelineIn_harvest _ _ _).2, hh, Option.map_some']
      have h : plantDate + 110 * msPerDay - (plantDate + d * msPerDay)
          = (110 - d) * msPerDay := by ring
      rw [h, Int.mul_ediv_cancel _ (by decide : msPerDay ≠ 0)]

/-- Instance of the amended C19 in Indian Standard Time, ten days after planting on
2024-01-01. -/
theorem harvest_offset_same_offset_witness :
    indiaStandardTime.offsetAtLocal
        (dateOf 2024 1 1 + indiaStandardTime.offsetAtUTC (dateOf 2024 1 1) + 110 * msPerDay)
      = indiaStandardTime.offsetAtUTC (dateOf 2024 1 1) ∧
    |dateOf 2024 1 1 + 110 * msPerDay| ≤ maxTimeValue ∧
    (calculateGrowthTimelineIn indiaStandardTime (some (dateOf 2024 1 1))
        (dateOf 2024 1 1 + 10 * msPerDay)).harvestDate = some (dateOf 2024 1 1 + 110 * msPerDay) ∧
    (calculateGrowthTimelineIn indiaStandardTime (some (dateOf 2024 1 1))
        (dateOf 2024 1 1 + 10 * msPerDay)).daysToHarvest = some (max 0 (110 - 10)) :=
  ⟨rfl, by decide,
    ((harvest_offset_same_offset indiaStandardTime (dateOf 2024 1 1) (dateOf 2024 1 1 + 10 * msPerDay)).2.2 rfl
      (by decide)).1,
    ((harvest_offset_same_offset indiaStandardTime (dateOf 2024 1 1) (dateOf 2024 1 1 + 10 * msPerDay)).2.2 rfl
      (by decide)).2 10 (by decide)⟩

end DataQuest
